import Mathlib

/-!
# Verification of the Simple-RAG agent core

Shallow embedding, translated from the repository sources, of:

* the agent state record (`src/agent/state.py`),
* the planner, reasoner, retriever, repository analyzer, generator and
  reflector nodes (`src/agent/nodes/*.py`),
* the orchestrator routing and `run_agent` entry point
  (`src/agent/orchestrator.py`),
* the evaluation metrics (`src/evaluation/metrics.py`,
  `src/evaluation/evaluator.py`),
* the persistent evidence cache (`src/utils/cache.py`).

Modelling conventions:

* Python strings are Lean `String`s; `x in s` is `containsSub`;
  `str.lower()` is `pyLower` (ASCII, as all scrutinised needles are ASCII).
* Python `None` is `Option.none`; the truthiness test `if value:` on an
  optional dict/list/str is `pyTruthy`/`pyTruthyStr` (empty collections and
  the empty string are falsy).
* Scores (Python floats) are modelled as exact rationals `ℚ`; every
  constant appearing in the metric code is exactly representable.
* LLM calls, disk and vector-store reads are oracles bundled in an `Env`
  record; each node consumes the oracle outcome exactly the way the Python
  code consumes the corresponding library result (including the fallback
  taken when the call raises).
* The LangGraph state graph is modelled as the explicit step relation
  `step` mirroring the edges registered in `create_agent_graph`, run with
  fuel by `runFrom`; node results are threaded directly from node to node.
* File-system time stamps are `Nat`s, and the truncated SHA-256 used by the
  cache key is modelled as the identity on the key string (i.e. injective).
-/

set_option maxRecDepth 8000

namespace SimpleRAG

/-! ## String helpers (Python string operations) -/

/-- Python `needle in hay` for strings: substring test. -/
def containsSub (needle hay : String) : Bool :=
  hay.toList.tails.any (fun t => needle.toList.isPrefixOf t)

/-- Python `s.lower()` (ASCII case folding suffices for the code's needles). -/
def pyLower (s : String) : String :=
  ⟨s.toList.map Char.toLower⟩

/-- Worker for `pySplit`: split on whitespace runs, dropping empty
pieces; `acc` holds the current word reversed. -/
def splitWsAux : List Char → List Char → List String
  | [], acc => if acc.isEmpty then [] else [⟨acc.reverse⟩]
  | c :: rest, acc =>
      if c.isWhitespace then
        if acc.isEmpty then splitWsAux rest []
        else ⟨acc.reverse⟩ :: splitWsAux rest []
      else splitWsAux rest (c :: acc)

/-- Python `s.split()` with no separator: split on whitespace runs,
dropping empty pieces (this also absorbs the preceding `.strip()`). -/
def pySplit (s : String) : List String :=
  splitWsAux s.toList []

/-- Python `s[:n]`. -/
def strTake (s : String) (n : Nat) : String :=
  ⟨s.toList.take n⟩

/-- Python `s[-n:]`. -/
def strTakeRight (s : String) (n : Nat) : String :=
  ⟨s.toList.drop (s.toList.length - n)⟩

/-- Count occurrences of a single character, Python `s.count(c)`. -/
def countChar (c : Char) (s : String) : Nat :=
  (s.toList.filter (fun d => d = c)).length

/-- The backquote character (U+0060), written numerically. -/
def backquoteChar : Char := Char.ofNat 96

/-- Python truthiness of an optional collection value
(`None` and the empty collection are falsy). -/
def pyTruthy {α : Type} (o : Option (List α)) : Bool :=
  match o with
  | none => false
  | some l => !l.isEmpty

/-- Python truthiness of an optional string (`None` and `""` are falsy). -/
def pyTruthyStr (o : Option String) : Bool :=
  match o with
  | none => false
  | some s => !s.isEmpty

/-! ## Data model (`src/agent/state.py`) -/

/-- A retrieved passage, the element shape stored by the retrieval node in
`retrieved_context`: `{"content": chunk, "source": "knowledge_base"}`. -/
structure Passage where
  content : String
  source : String
deriving DecidableEq, Inhabited

/-- Payload dictionaries (repository structure, dependencies, …) are opaque
to the control flow; only their presence/emptiness is scrutinised. -/
abbrev Dict := List (String × String)

/-- The score dictionary produced by `AgentEvaluator.evaluate`
(five metrics plus `overall_score`), values as exact rationals. -/
structure Scores where
  task_completion : ℚ
  reasoning_quality : ℚ
  tool_effectiveness : ℚ
  reflection_quality : ℚ
  output_quality : ℚ
  overall_score : ℚ
deriving DecidableEq, Inhabited

/-- `AgentState` (the TypedDict of `src/agent/state.py`).  The `messages`
history, `draft_content`, `output_before_reflection` and
`evaluation_explanations` fields are not read by any modelled component and
are omitted.  `skip_reasoning`/`skip_reflection` are read through
`state.get(_, False)`, hence plain `Bool` fields initialised to `false`. -/
structure AgentState where
  task : String
  task_type : String
  repo_structure : Option Dict
  code_files : Option Dict
  dependencies : Option Dict
  architecture : Option Dict
  code_symbols : Option Dict
  verification_outputs : Option Dict
  reasoning_steps : List String
  reflection_notes : List String
  reflection_assessment : Option String
  tool_usage : List String
  retrieved_context : Option (List Passage)
  final_output : Option String
  evaluation_scores : Option Scores
  next_action : String
  iteration_count : Nat
  generation_count : Nat
  max_iterations : Nat
  is_complete : Bool
  skip_reasoning : Bool
  skip_reflection : Bool
deriving DecidableEq, Inhabited

/-- `create_initial_state` from `src/agent/state.py`. -/
def create_initial_state (task task_type : String) (max_iterations : Nat) :
    AgentState where
  task := task
  task_type := task_type
  repo_structure := none
  code_files := none
  dependencies := none
  architecture := none
  code_symbols := none
  verification_outputs := none
  reasoning_steps := []
  reflection_notes := []
  reflection_assessment := none
  tool_usage := []
  retrieved_context := none
  final_output := none
  evaluation_scores := none
  next_action := "plan"
  iteration_count := 0
  generation_count := 0
  max_iterations := max_iterations
  is_complete := false
  skip_reasoning := false
  skip_reflection := false

/-! ## Planner (`src/agent/nodes/planner.py`) -/

/-- The keyword list of `planning_node`. -/
def code_keywords : List String :=
  ["where", "which", "file", "class", "function", "import", "use", "used"]

/-- `has_repo_data = bool(state.get("repo_structure") or state.get("code_files"))`. -/
def has_repo_data (s : AgentState) : Bool :=
  pyTruthy s.repo_structure || pyTruthy s.code_files

/-- `any(keyword in task_lower for keyword in code_keywords)`. -/
def mentionsCodeKeyword (task_lower : String) : Bool :=
  code_keywords.any (fun k => containsSub k task_lower)

/-- The planner's `is_trivial = any(trivial_patterns)` detection:
arithmetic tokens, at most three whitespace tokens without code keywords,
or a greeting. -/
def isTrivialQuery (task : String) : Bool :=
  let task_lower := pyLower task
  let mathOp := ["+", "-", "*", "/", "=", "plus", "minus", "times",
      "divided"].any (fun op => containsSub op task_lower)
  let shortQuery := decide ((pySplit task).length ≤ 3)
      && !(code_keywords.any (fun kw => containsSub kw task_lower))
  let greeting := ["hello", "hi", "hey", "thanks", "thank you"].any
      (fun w => containsSub w task_lower)
  mathOp || shortQuery || greeting

/-- The branch ladder of `planning_node`, returning
`(next_action, skip_reasoning, skip_reflection, plan_note)`. -/
def planner_decision (s : AgentState) : String × Bool × Bool × String :=
  if s.task_type = "analyze_repo" then
    ("analyze", false, false, "Task requires repository analysis")
  else if s.task_type = "answer_question" then
    ("retrieve", false, true, "Task requires knowledge base retrieval")
  else if s.task_type = "generate_content" then
    if has_repo_data s then
      ("reason", false, true,
        "Task requires content generation using cached repo data")
    else
      ("analyze", false, true,
        "Task requires repo analysis before content generation")
  else
    let task_lower := pyLower s.task
    if mentionsCodeKeyword task_lower && !has_repo_data s then
      ("analyze", false, true,
        "Code-specific question detected - analyzing repository")
    else if isTrivialQuery s.task then
      ("reason", true, true, "Simple query detected - direct response")
    else
      ("reason", false, true, "Task requires direct reasoning")

/-- `planning_node`: sets the routing decision and skip hints, appends one
planning note to the reasoning trail and increments `iteration_count`. -/
def planning_node (s : AgentState) : AgentState :=
  { s with
    next_action := (planner_decision s).1
    skip_reasoning := (planner_decision s).2.1
    skip_reflection := (planner_decision s).2.2.1
    reasoning_steps := s.reasoning_steps ++
      ["Planning: " ++ (planner_decision s).2.2.2 ++ " → next action: " ++
        (planner_decision s).1]
    iteration_count := s.iteration_count + 1 }

/-! ## Orchestrator routing (`src/agent/orchestrator.py`) -/

/-- `route_after_planning`. -/
def route_after_planning (s : AgentState) : String :=
  if s.max_iterations < s.iteration_count then "end"
  else if s.next_action = "analyze" ∨ s.next_action = "retrieve" ∨
      s.next_action = "reason" then s.next_action
  else "end"

/-- `route_after_reflection`. -/
def route_after_reflection (s : AgentState) : String :=
  if s.next_action = "continue" ∨ s.next_action = "retry" ∨
      s.next_action = "end" then s.next_action
  else "end"

/-! ## Environment: oracles for LLM calls, disk cache and vector store -/

/-- Outcome of the reflection LLM interaction, as consumed by
`reflection_node`: `parsed` carries the values obtained after the
`.get(...)` defaults on the decoded JSON object; `fail` covers every path
that lands in a fallback (connection errors, exhausted rate-limit retries,
non-JSON content — whose undefined `reflection` variable raises before the
note is stored — and client-setup errors). -/
inductive ReflOutcome where
  | fail
  | parsed (assessment : String) (critique : String) (canImprove : Bool)
deriving DecidableEq, Inhabited

/-- Outcome of the reasoner LLM interaction: `fail` takes the two-step
generic fallback, `steps` carries the parsed `reasoning_steps` list. -/
inductive ReasonOutcome where
  | fail
  | steps (l : List String)
deriving DecidableEq, Inhabited

/-- Outcome of the ChromaDB retrieval: a raised store error, an empty
collection, or the retrieved chunk list. -/
inductive RetrOutcome where
  | storeError (msg : String)
  | emptyStore
  | results (chunks : List String)
deriving DecidableEq, Inhabited

/-- The bundle shape the repository analyzer stores in / loads from the
persistent cache (`cached_data.get(...)` may yield `None` per field). -/
structure CacheBundle where
  repo_structure : Option Dict
  code_files : Option Dict
  dependencies : Option Dict
  architecture : Option Dict
  code_symbols : Option Dict
  verification_outputs : Option Dict
deriving DecidableEq, Inhabited

/-- The six data dictionaries produced by a full repository scan. -/
structure ScanResult where
  repo_structure : Dict
  code_files : Dict
  dependencies : Dict
  architecture : Dict
  code_symbols : Dict
  verification_outputs : Dict
deriving DecidableEq, Inhabited

/-- The external world of one agent run: presence of the Azure OpenAI key
and the outcome of each external interaction as a function of the state at
the moment of the call. -/
structure Env where
  apiKeyPresent : Bool
  reflLLM : AgentState → ReflOutcome
  genOutput : AgentState → String
  reasonerLLM : AgentState → ReasonOutcome
  analyzerDisk : AgentState → Option CacheBundle
  analyzerScan : AgentState → ScanResult
  retrieval : AgentState → RetrOutcome

/-! ## Reflector (`src/agent/nodes/reflector.py`) -/

/-- The hard ceiling `max_generations = 3` hard-coded inside
`reflection_node`. -/
def reflectorMaxGenerations : Nat := 3

/-- Whether `reflection_node` reaches the completion-backend call: it
returns early exactly when the API key is missing or `final_output` is
falsy (`if not api_key or not final_output:`). -/
def reflectionCallsBackend (env : Env) (s : AgentState) : Bool :=
  env.apiKeyPresent && pyTruthyStr s.final_output

/-- The `(assessment, next_action, reflection_note)` triple computed by
`reflection_node`: early fallback without a backend call; LLM-failure
fallback; or the parsed path with the generation ceiling applied before the
final routing ladder. -/
def reflection_result (env : Env) (s : AgentState) : String × String × String :=
  if !(env.apiKeyPresent && pyTruthyStr s.final_output) then
    ("good", "end", "Reflection: Output appears complete, proceeding to evaluation")
  else
    match env.reflLLM s with
    | .fail =>
        ("good", "end",
          "Reflection (gen " ++ toString s.generation_count ++
            "): Output accepted (reflection failed)")
    | .parsed assessment critique canImprove =>
        let forced := reflectorMaxGenerations ≤ s.generation_count
        let a1 := if forced then "good" else assessment
        let c1 := if forced then
            "Max generation attempts reached, proceeding with current output"
          else critique
        let a2 :=
          if a1 = "needs_more_data" ∧ canImprove = false then a1
          else if a1 = "needs_improvement" ∧ canImprove = true then a1
          else if a1 = "good" then a1
          else "good"
        let na :=
          if a1 = "needs_more_data" ∧ canImprove = false then "continue"
          else if a1 = "needs_improvement" ∧ canImprove = true then "retry"
          else if a1 = "good" then "end"
          else "end"
        (a2, na, "Reflection (gen " ++ toString s.generation_count ++ "): " ++
          a2 ++ " - " ++ c1)

/-- `reflection_node`: stores the assessment, the routing decision and
appends exactly one reflection note. -/
def reflection_node (env : Env) (s : AgentState) : AgentState :=
  { s with
    reflection_assessment := some (reflection_result env s).1
    next_action := (reflection_result env s).2.1
    reflection_notes := s.reflection_notes ++ [(reflection_result env s).2.2] }

/-! ## Remaining nodes -/

/-- `generation_node` (`src/agent/nodes/generator.py`): stores the text
produced by `_generate_with_llm` (LLM or template fallback — every code
path returns a string, supplied here by the oracle), increments
`generation_count` exactly once and unconditionally sets `is_complete`. -/
def generation_node (env : Env) (s : AgentState) : AgentState :=
  { s with
    generation_count := s.generation_count + 1
    final_output := some (env.genOutput s)
    is_complete := true }

/-- The five reasoning-trail entries appended by a full repository scan in
`repo_analyzer_node` (counts taken from the scanned dictionaries). -/
def analyzerSteps (sc : ScanResult) : List String :=
  ["Repository analysis: Found " ++ toString sc.repo_structure.length ++
      " top-level items",
   "Repository analysis: Analyzed " ++ toString sc.code_files.length ++
      " source files",
   "Repository analysis: Identified " ++ toString sc.dependencies.length ++
      " dependencies",
   "Repository analysis: Mapped " ++ toString sc.architecture.length ++
      " modules",
   "Repository analysis: Extracted " ++ toString sc.code_symbols.length ++
      " code symbols for evidence-based analysis"]

/-- `repo_analyzer_node` (`src/agent/nodes/repo_analyzer.py`): session
cache hit returns the state unchanged; disk cache hit loads the six data
fields and sets `next_action = "generate"`; otherwise a full scan fills the
data fields, appends five reasoning steps and one tool-usage record (and
writes through to the persistent cache, an external effect not altering the
agent state). -/
def repo_analyzer_node (env : Env) (s : AgentState) : AgentState :=
  if pyTruthy s.code_symbols && pyTruthy s.verification_outputs then s
  else
    match env.analyzerDisk s with
    | some cd =>
        { s with
          repo_structure := cd.repo_structure
          code_files := cd.code_files
          dependencies := cd.dependencies
          architecture := cd.architecture
          code_symbols := cd.code_symbols
          verification_outputs := cd.verification_outputs
          next_action := "generate" }
    | none =>
        let sc := env.analyzerScan s
        { s with
          repo_structure := some sc.repo_structure
          code_files := some sc.code_files
          dependencies := some sc.dependencies
          architecture := some sc.architecture
          code_symbols := some sc.code_symbols
          verification_outputs := some sc.verification_outputs
          reasoning_steps := s.reasoning_steps ++ analyzerSteps sc
          tool_usage := s.tool_usage ++ ["repository_analysis"] }

/-- `retrieval_node` (`src/agent/nodes/retriever.py`): a store error or an
empty collection yield an empty context plus one explanatory reasoning
step; retrieved chunks are stored with source `"knowledge_base"` and a
tool-usage record; on every path `next_action = "reason"`. -/
def retrieval_node (env : Env) (s : AgentState) : AgentState :=
  match env.retrieval s with
  | .storeError msg =>
      { s with
        retrieved_context := some []
        reasoning_steps := s.reasoning_steps ++
          ["Retrieval: Failed to retrieve context - " ++ msg]
        next_action := "reason" }
  | .emptyStore =>
      { s with
        retrieved_context := some []
        reasoning_steps := s.reasoning_steps ++
          ["Retrieval: Knowledge base is empty - no context retrieved"]
        next_action := "reason" }
  | .results chunks =>
      if chunks.isEmpty then
        { s with
          retrieved_context := some []
          reasoning_steps := s.reasoning_steps ++
            ["Retrieval: No relevant context found in knowledge base"]
          next_action := "reason" }
      else
        { s with
          retrieved_context := some (chunks.map (fun c => ⟨c, "knowledge_base"⟩))
          tool_usage := s.tool_usage ++ ["chromadb_retrieval"]
          reasoning_steps := s.reasoning_steps ++
            ["Retrieval: Found " ++ toString chunks.length ++
              " relevant chunks from knowledge base"]
          next_action := "reason" }

/-- `reasoning_node` (`src/agent/nodes/reasoner.py`): the skip hint yields
a single passthrough step; a missing key, and likewise an LLM failure,
yield the two generic fallback steps; parsed LLM steps are appended with
the `"Reasoning: "` prefix.  On every path `next_action = "generate"`. -/
def reasoning_node (env : Env) (s : AgentState) : AgentState :=
  if s.skip_reasoning then
    { s with
      reasoning_steps := s.reasoning_steps ++
        ["Reasoning: Direct response (no complex reasoning needed)"]
      next_action := "generate" }
  else if !env.apiKeyPresent then
    { s with
      reasoning_steps := s.reasoning_steps ++
        ["Reasoning: Analyzing available information",
         "Reasoning: Formulating response"]
      next_action := "generate" }
  else
    match env.reasonerLLM s with
    | .fail =>
        { s with
          reasoning_steps := s.reasoning_steps ++
            ["Reasoning: Analyzing available information",
             "Reasoning: Formulating response"]
          next_action := "generate" }
    | .steps l =>
        { s with
          reasoning_steps := s.reasoning_steps ++
            l.map (fun st => "Reasoning: " ++ st)
          next_action := "generate" }

/-! ## Evaluation metrics (`src/evaluation/metrics.py`) -/

/-- `calculate_task_completion_score`: 50 for a truthy final output, 30 for
`is_complete`, 20 (or 10 at equality) for the iteration budget, clamped. -/
def calculate_task_completion_score (s : AgentState) : ℚ :=
  let score : ℚ :=
    (if pyTruthyStr s.final_output then 50 else 0) +
    (if s.is_complete then 30 else 0) +
    (if s.iteration_count < s.max_iterations then 20
     else if s.iteration_count = s.max_iterations then 10 else 0)
  min score 100

/-- `calculate_reasoning_quality_score`. -/
def calculate_reasoning_quality_score (s : AgentState) : ℚ :=
  let numSteps := s.reasoning_steps.length
  let score : ℚ :=
    (if 0 < numSteps then 40 else 0) +
    (if 5 ≤ numSteps then 40
     else if 3 ≤ numSteps then 30
     else if 1 ≤ numSteps then 20 else 0) +
    (if 0 < s.reflection_notes.length then 20 else 0)
  min score 100

/-- `calculate_tool_effectiveness_score`. -/
def calculate_tool_effectiveness_score (s : AgentState) : ℚ :=
  let numTools := s.tool_usage.length
  let score : ℚ :=
    (if 0 < numTools then 50 else 0) +
    (if 3 ≤ numTools then 30
     else if 2 ≤ numTools then 20
     else if 1 ≤ numTools then 10 else 0) +
    (if s.repo_structure.isSome && s.dependencies.isSome then 20
     else if s.repo_structure.isSome || s.dependencies.isSome then 10 else 0)
  min score 100

/-- `_check_reflection_incorporated`: detects the explicit
self-reflection section in the (lower-cased) output and scores the density
of critique vocabulary.  Callers guarantee `final_output` is a string. -/
def check_reflection_incorporated (s : AgentState) : Bool × ℚ :=
  let output := pyLower (s.final_output.getD "")
  let has_section := containsSub "how self-reflection improved" output ||
    containsSub "self-reflection impact" output
  if !has_section then (false, 0)
  else
    let critique_terms := ["addressing", "critique", "mentioned", "noted",
      "responding to", "improving", "enhancement", "added", "included"]
    let references_found :=
      (critique_terms.filter (fun t => containsSub t output)).length
    let score : ℚ := 15 +
      (if 3 ≤ references_found then 15
       else if 1 ≤ references_found then 10 else 0)
    (true, min score 30)

/-- `calculate_reflection_quality_score`.  Returns `none` when
`final_output` is `None`: the Python code then raises `AttributeError`
(`None.lower()` inside `_check_reflection_incorporated`), which
`AgentEvaluator.evaluate` converts to the score 0.0. -/
def calculate_reflection_quality_score (s : AgentState) : Option ℚ :=
  match s.final_output with
  | none => none
  | some out =>
      let numNotes := s.reflection_notes.length
      let base : ℚ :=
        (if 0 < numNotes then 30 else 0) +
        (if 3 ≤ numNotes then 30
         else if 2 ≤ numNotes then 20
         else if 1 ≤ numNotes then 15 else 0)
      let chk := check_reflection_incorporated s
      let output_lower := pyLower out
      let incorporation : ℚ :=
        if chk.1 then 40
        else if 0 < numNotes &&
            ["addressing", "improved", "enhanced", "added",
              "included"].any (fun t => containsSub t output_lower) then 20
        else 0
      some (min (base + incorporation) 100)

/-- `_detect_output_type`. -/
def detect_output_type (s : AgentState) : String :=
  let task := pyLower s.task
  if containsSub "linkedin" task || containsSub "post" task then
    "linkedin_post"
  else if ["where", "which file", "which class", "which function",
      "show me", "find", "locate", "how is",
      "used in"].any (fun kw => containsSub kw task) then
    "code_question"
  else if s.task_type = "analyze_repo" then "repository_analysis"
  else "general"

/-- `_evaluate_code_question_quality`. -/
def evaluate_code_question_quality (s : AgentState) : ℚ :=
  let output := s.final_output.getD ""
  let output_lower := pyLower output
  let score : ℚ :=
    (if containsSub ".py" output || containsSub "/" output ||
        containsSub "file:" output_lower then 10 else 0) +
    (if containsSub "line" output_lower &&
        output.toList.any Char.isDigit then 10 else 0) +
    (if containsSub "import" output_lower || containsSub "from" output_lower ||
        containsSub "def" output_lower || containsSub "class" output_lower ||
        output.toList.contains backquoteChar then 10 else 0) +
    (if output.toList.any Char.isUpper || containsSub "()" output
     then 10 else 0) +
    (if 500 ≤ output.length then 15
     else if 200 ≤ output.length then 12
     else if 100 ≤ output.length then 8 else 0) +
    (if 200 ≤ output.length &&
        (containsSub "used in" output_lower ||
         containsSub "function" output_lower ||
         containsSub "purpose" output_lower) then 15 else 0) +
    (check_reflection_incorporated s).2
  min score 100

/-- `_evaluate_linkedin_post_quality`. -/
def evaluate_linkedin_post_quality (s : AgentState) : ℚ :=
  let output := s.final_output.getD ""
  let output_lower := pyLower output
  let hashtag_count := countChar '#' output
  let emoji_count :=
    (["🤖", "🎯", "✨", "🚀", "💡", "📊",
      "🔍"].filter (fun e => containsSub e output)).length
  let tech_count :=
    (["langgraph", "langchain", "azure", "openai", "gpt", "rag",
      "agent"].filter (fun t => containsSub t output_lower)).length
  let score : ℚ :=
    (if ["excited", "thrilled", "introducing", "proud"].any
        (fun w => containsSub w (strTake output_lower 200)) then 10 else 0) +
    (if ["features", "stack", "technical", "capabilities"].any
        (fun w => containsSub w output_lower) then 10 else 0) +
    (if ["thank", "check out", "available", "repo"].any
        (fun w => containsSub w (strTakeRight output_lower 200))
     then 10 else 0) +
    (if 5 ≤ hashtag_count then 10
     else if 3 ≤ hashtag_count then 7
     else if 1 ≤ hashtag_count then 4 else 0) +
    (if 2 ≤ emoji_count then 10 else if 1 ≤ emoji_count then 5 else 0) +
    (if 4 ≤ tech_count then 20
     else if 2 ≤ tech_count then 15
     else if 1 ≤ tech_count then 10 else 0) +
    (if output.toList.any Char.isDigit then 15 else 0) +
    (if containsSub "p.s." output_lower ||
        containsSub "self-reflection" output_lower then 15 else 0)
  min score 100

/-! Scanners for the regular expressions used by
`_evaluate_repository_analysis_quality`. -/

/-- One attempted match of `\[evidence:\s*[^\]]+\]` at the head of `cs`:
on success, the remainder after the match. -/
def evidenceTagSpan (cs : List Char) : Option (List Char) :=
  let pre := "[evidence:".toList
  if pre.isPrefixOf cs then
    let afterWs := (cs.drop pre.length).dropWhile Char.isWhitespace
    let content := afterWs.takeWhile (fun c => c ≠ ']')
    if content.length = 0 then none
    else
      match afterWs.drop content.length with
      | ']' :: tail => some tail
      | _ => none
  else none

theorem evidenceTagSpan_length_lt {cs tail : List Char}
    (h : evidenceTagSpan cs = some tail) : tail.length < cs.length := by
  dsimp only [evidenceTagSpan] at h
  split at h
  case isTrue hpre =>
    have hlen : ("[evidence:".toList).length ≤ cs.length :=
      ((List.isPrefixOf_iff_prefix.mp hpre).length_le)
    have h10 : ("[evidence:".toList).length = 10 := by decide
    have hdropLe :
        ((cs.drop ("[evidence:".toList).length).dropWhile
          Char.isWhitespace).length ≤ cs.length - 10 := by
      calc ((cs.drop ("[evidence:".toList).length).dropWhile
              Char.isWhitespace).length
          ≤ (cs.drop ("[evidence:".toList).length).length :=
            (List.dropWhile_sublist _).length_le
        _ = cs.length - 10 := by rw [List.length_drop, h10]
    split at h
    case isTrue => exact absurd h (by simp)
    case isFalse =>
      split at h
      case h_1 tail' heq =>
        have htail : tail'.length <
            ((cs.drop ("[evidence:".toList).length).dropWhile
              Char.isWhitespace).length := by
          have hlendrop :
              (((cs.drop ("[evidence:".toList).length).dropWhile
                Char.isWhitespace).drop
                (((cs.drop ("[evidence:".toList).length).dropWhile
                  Char.isWhitespace).takeWhile (fun c => c ≠ ']')).length).length
              ≤ ((cs.drop ("[evidence:".toList).length).dropWhile
                  Char.isWhitespace).length := by
            rw [List.length_drop]; omega
          rw [heq] at hlendrop
          simp only [List.length_cons] at hlendrop
          omega
        have := Option.some.inj h
        subst this
        omega
      case h_2 => exact absurd h (by simp)
  case isFalse => exact absurd h (by simp)

/-- Non-overlapping count of `\[evidence:\s*[^\]]+\]` matches, the
semantics of `re.findall` followed by `len`. -/
def countEvidenceTagsAux : List Char → Nat
  | [] => 0
  | c :: rest =>
    match h : evidenceTagSpan (c :: rest) with
    | some tail => 1 + countEvidenceTagsAux tail
    | none => countEvidenceTagsAux rest
termination_by cs => cs.length
decreasing_by
  · exact evidenceTagSpan_length_lt h
  · simp

/-- `len(re.findall(r'\[evidence:\s*[^\]]+\]', output))`. -/
def countEvidenceTags (s : String) : Nat :=
  countEvidenceTagsAux s.toList

/-- `re.search(r':(\d+)(?:-\d+)?', output)`: a colon immediately followed
by a digit occurs. -/
def hasLineRef (s : String) : Bool :=
  s.toList.tails.any (fun t =>
    match t with
    | ':' :: d :: _ => d.isDigit
    | _ => false)

/-- Occurrence of a backquoted capitalised identifier, the language of
the pattern `` `[A-Z][a-zA-Z]+(?:Class|Node|Manager|Runner|Handler)?` ``
(the optional suffix is absorbed by `[a-zA-Z]+`). -/
def hasClassRef (s : String) : Bool :=
  s.toList.tails.any (fun t =>
    match t with
    | b :: u :: rest =>
        b = backquoteChar && u.isUpper &&
          (let run := rest.takeWhile Char.isAlpha
           decide (1 ≤ run.length) &&
             (match rest.drop run.length with
              | e :: _ => e = backquoteChar
              | [] => false))
    | _ => false)

/-- Occurrence of a backquoted `snake_case()` call, the language of the
pattern `` `[a-z_]+\(\)` ``. -/
def hasFuncRef (s : String) : Bool :=
  s.toList.tails.any (fun t =>
    match t with
    | b :: rest =>
        b = backquoteChar &&
          (let run := rest.takeWhile (fun c => c.isLower || c = '_')
           decide (1 ≤ run.length) &&
             (match rest.drop run.length with
              | '(' :: ')' :: e :: _ => e = backquoteChar
              | _ => false))
    | [] => false)

/-- `_evaluate_repository_analysis_quality`: evidence-tag counting with a
penalty for their absence, section completeness, concrete symbol/test/
version/command references, a vagueness penalty, formatting, and the
reflection-incorporation bonus, clamped into `[0, 100]`. -/
def evaluate_repository_analysis_quality (s : AgentState) : ℚ :=
  let output := s.final_output.getD ""
  let output_lower := pyLower output
  let evidence_count := countEvidenceTags output
  let sections_found :=
    (["overview", "architecture", "dependencies", "structure",
      "capabilities"].filter (fun sec => containsSub sec output_lower)).length
  let has_line_refs := hasLineRef output
  let has_class_refs := hasClassRef output
  let has_function_refs := hasFuncRef output
  let has_test_syntax := containsSub "::" output &&
    containsSub "test" output_lower
  let has_test_files := containsSub "tests/" output_lower ||
    containsSub "test_" output_lower
  let vague_count :=
    (["likely", "suggests", "appears to", "may", "probably", "seems to",
      "possibly"].filter (fun t => containsSub t output_lower)).length
  let score : ℚ :=
    (if 15 ≤ evidence_count then 30
     else if 10 ≤ evidence_count then 25
     else if 5 ≤ evidence_count then 15
     else if 1 ≤ evidence_count then 5 else -20) +
    (sections_found : ℚ) * 5 +
    (if has_line_refs && (has_class_refs || has_function_refs) then 10
     else if has_class_refs && has_function_refs then 7
     else if has_class_refs || has_function_refs then 4 else 0) +
    (if has_test_syntax && has_test_files then 10
     else if has_test_files then 4 else 0) +
    (if containsSub "==" output || containsSub "~=" output then 5 else 0) +
    (if ["pytest", "coverage", "find tests", "command"].any
        (fun kw => containsSub kw output_lower) then 5 else 0) +
    (if 5 ≤ vague_count then -15
     else if 3 ≤ vague_count then -10
     else if 1 ≤ vague_count then -5 else 0) +
    (if containsSub "#" (strTake output 100) || containsSub "##" output
     then 7 else 0) +
    (if containsSub "- " output || containsSub "* " output ||
        10 ≤ countChar '\n' output then 8 else 0) +
    min (check_reflection_incorporated s).2 10
  max 0 (min score 100)

/-- `_evaluate_general_quality`. -/
def evaluate_general_quality (s : AgentState) : ℚ :=
  let output := s.final_output.getD ""
  if output = "" then 0
  else
    let score : ℚ := 40 +
      (if 100 ≤ output.length ∧ output.length ≤ 2000 then 30
       else if 50 ≤ output.length then 20 else 0) +
      (if 2 ≤ countChar '\n' output || containsSub "." output
       then 20 else 0) +
      (if (check_reflection_incorporated s).1 then 10 else 0)
    min score 100

/-- `calculate_output_quality_score`: 0 for a falsy output, otherwise the
task-aware dispatch on `_detect_output_type`. -/
def calculate_output_quality_score (s : AgentState) : ℚ :=
  if !pyTruthyStr s.final_output then 0
  else if detect_output_type s = "code_question" then
    evaluate_code_question_quality s
  else if detect_output_type s = "linkedin_post" then
    evaluate_linkedin_post_quality s
  else if detect_output_type s = "repository_analysis" then
    evaluate_repository_analysis_quality s
  else evaluate_general_quality s

/-! ## Overall score and the evaluator (`src/evaluation/evaluator.py`) -/

/-- A score dictionary possibly missing keys, the input shape of
`calculate_overall_score`. -/
structure ScoresPartial where
  task_completion : Option ℚ
  reasoning_quality : Option ℚ
  tool_effectiveness : Option ℚ
  reflection_quality : Option ℚ
  output_quality : Option ℚ
deriving DecidableEq, Inhabited

/-- `calculate_overall_score`: fold over the fixed `weights` table in its
insertion order, accumulating the weighted sum and the matched weight. -/
def calculate_overall_score (d : ScoresPartial) : ℚ :=
  let acc :=
    [(d.task_completion, (35 : ℚ)/100), (d.reasoning_quality, 25/100),
     (d.tool_effectiveness, 15/100), (d.reflection_quality, 10/100),
     (d.output_quality, 15/100)].foldl
      (fun acc mw =>
        match mw.1 with
        | some v => (acc.1 + v * mw.2, acc.2 + mw.2)
        | none => acc) ((0 : ℚ), (0 : ℚ))
  if acc.2 = 0 then 0 else acc.1 / acc.2

/-- The overall score as the specification words it: the weighted sum over
the sub-scores present, normalised by the total weight present, 0 when no
weighted sub-score is present.  Stated independently of
`calculate_overall_score` for the refinement proof of claim C9. -/
def overall_score_spec (d : ScoresPartial) : ℚ :=
  let present :=
    [(d.task_completion, (35 : ℚ)/100), (d.reasoning_quality, 25/100),
     (d.tool_effectiveness, 15/100), (d.reflection_quality, 10/100),
     (d.output_quality, 15/100)].filterMap
      (fun mw => mw.1.map (fun v => (v, mw.2)))
  if present = [] then 0
  else (present.map (fun p => p.1 * p.2)).sum /
    (present.map (fun p => p.2)).sum

/-- `AgentEvaluator.evaluate`: all five metrics (a raising metric scores
0.0 through the per-metric exception guard) plus the overall score. -/
def AgentEvaluator_evaluate (s : AgentState) : Scores :=
  let tc := calculate_task_completion_score s
  let rq := calculate_reasoning_quality_score s
  let te := calculate_tool_effectiveness_score s
  let rfq := (calculate_reflection_quality_score s).getD 0
  let oq := calculate_output_quality_score s
  { task_completion := tc
    reasoning_quality := rq
    tool_effectiveness := te
    reflection_quality := rfq
    output_quality := oq
    overall_score :=
      calculate_overall_score ⟨some tc, some rq, some te, some rfq, some oq⟩ }

/-- `evaluation_node` (`src/agent/nodes/evaluator.py`). -/
def evaluation_node (s : AgentState) : AgentState :=
  { s with evaluation_scores := some (AgentEvaluator_evaluate s) }

/-! ## Persistent cache (`src/utils/cache.py`)

The cache directory is a finite map from file names to `(mtime, payload)`
pairs; `now` is the clock value at the moment of the call, in the same unit
as the stored modification times, and `ttl` is the configured
time-to-live in that unit.  The truncated SHA-256 of the key string is
modelled as the identity on the key string. -/

/-- A cache directory: files named by the cache key, holding the write
time stamp and the pickled payload. -/
structure PersistentCache (α : Type) where
  ttl : Nat
  store : List ((String × Nat) × Nat × α)

/-- The `latest_mtime` of `_get_cache_key`: the maximum modification time
over the first 100 matching source files, or the directory's own
modification time when none match (also the fallback when the scan
raises). -/
def sampledLatestMtime (pyFiles : List (String × Nat)) (dirMtime : Nat) : Nat :=
  if pyFiles.isEmpty then dirMtime
  else ((pyFiles.take 100).map Prod.snd).foldl Nat.max 0

/-- `_get_cache_key`: the cache file name, an injective function of the
resolved repository path and the sampled latest modification time (the
code hashes the string `f"{repo_path}:{latest_mtime}"` with truncated
SHA-256 and embeds the digest in the file name; the hash is modelled as
injective, so the key is the pair itself). -/
def getCacheKey (repoPath : String) (pyFiles : List (String × Nat))
    (dirMtime : Nat) : String × Nat :=
  (repoPath, sampledLatestMtime pyFiles dirMtime)

/-- Association lookup in a cache directory (the file-name lookup the
cache performs on `get`). -/
def storeLookup {α : Type} (key : String × Nat) :
    List ((String × Nat) × Nat × α) → Option (Nat × α)
  | [] => none
  | e :: rest => if e.1 = key then some e.2 else storeLookup key rest

/-- `PersistentCache.get`: recompute the key from the current file system,
miss when no such cache file exists, miss (and delete — deletion is not
tracked, it affects no modelled observation) when the entry's age exceeds
the TTL, otherwise the unpickled payload. -/
def cacheGet {α : Type} (c : PersistentCache α) (repoPath : String)
    (pyFiles : List (String × Nat)) (dirMtime now : Nat) : Option α :=
  match storeLookup (getCacheKey repoPath pyFiles dirMtime) c.store with
  | none => none
  | some (storedAt, data) => if c.ttl < now - storedAt then none else some data

/-- `PersistentCache.set`: write (replacing any previous file of the same
name) the payload under the derived key, stamped with the current time. -/
def cacheSet {α : Type} (c : PersistentCache α) (repoPath : String)
    (pyFiles : List (String × Nat)) (dirMtime now : Nat) (data : α) :
    PersistentCache α :=
  { c with store :=
      (getCacheKey repoPath pyFiles dirMtime, now, data) ::
        c.store.filter (fun e => e.1 ≠ getCacheKey repoPath pyFiles dirMtime) }

/-! ## The state graph and `run_agent` (`src/agent/orchestrator.py`) -/

/-- The nodes registered in `create_agent_graph`. -/
inductive NodeTag where
  | planner
  | analyzer
  | retriever
  | reasoner
  | generator
  | reflector
  | evaluator
deriving DecidableEq, Inhabited

/-- One transition of the compiled graph: run the node at the current tag
and follow the registered (conditional) edge; `Sum.inr` is the `END`
node, reached only from the evaluator. -/
def step (env : Env) : NodeTag × AgentState →
    (NodeTag × AgentState) ⊕ AgentState
  | (.planner, s) =>
      let s' := planning_node s
      let r := route_after_planning s'
      if r = "analyze" then .inl (.analyzer, s')
      else if r = "retrieve" then .inl (.retriever, s')
      else if r = "reason" then .inl (.reasoner, s')
      else .inl (.evaluator, s')
  | (.analyzer, s) => .inl (.reasoner, repo_analyzer_node env s)
  | (.retriever, s) => .inl (.reasoner, retrieval_node env s)
  | (.reasoner, s) => .inl (.generator, reasoning_node env s)
  | (.generator, s) => .inl (.reflector, generation_node env s)
  | (.reflector, s) =>
      let s' := reflection_node env s
      let r := route_after_reflection s'
      if r = "continue" then .inl (.planner, s')
      else if r = "retry" then .inl (.generator, s')
      else .inl (.evaluator, s')
  | (.evaluator, s) => .inr (evaluation_node s)

/-- Fuelled execution of the graph from a configuration; `none` when the
fuel runs out before `END`. -/
def runFrom (env : Env) : Nat → NodeTag × AgentState → Option AgentState
  | 0, _ => none
  | fuel + 1, c =>
      match step env c with
      | .inr s => some s
      | .inl c' => runFrom env fuel c'

/-- `runFrom` instrumented with a count of generator invocations. -/
def runFromCount (env : Env) :
    Nat → NodeTag × AgentState → Nat → Option (AgentState × Nat)
  | 0, _, _ => none
  | fuel + 1, c, k =>
      match step env c with
      | .inr s => some (s, k)
      | .inl c' =>
          runFromCount env fuel c' (if c.1 = .generator then k + 1 else k)

/-- Exception metadata observed by `run_agent`'s handler
(`type(e).__name__` and `str(e)`). -/
structure ExcInfo where
  typeName : String
  message : String
deriving DecidableEq, Inhabited

/-- The degraded final output built by `run_agent`'s exception handler. -/
def agentErrorMessage (e : ExcInfo) : String :=
  "I apologize, but I encountered an error while processing your request.\n\n**Error Type:** "
    ++ (e.typeName
    ++ ("\n**Details:** " ++ (strTake e.message 200
    ++ "\n\nThis may be due to:\n- Missing or invalid API credentials\n- Network connectivity issues\n- Rate limiting from API providers\n- Invalid input format\n\nPlease check your configuration and try again.")))

/-- The zeroed score dictionary of the exception handler. -/
def zeroScores : Scores :=
  { task_completion := 0
    reasoning_quality := 0
    tool_effectiveness := 0
    reflection_quality := 0
    output_quality := 0
    overall_score := 0 }

/-- The initial state of a run, after the optional injection of
`previous_repo_data`. -/
def agentInitialState (task task_type : String) (max_iterations : Nat)
    (previous_repo_data : Option CacheBundle) : AgentState :=
  let init := create_initial_state task task_type max_iterations
  match previous_repo_data with
  | none => init
  | some d =>
      { init with
        repo_structure := d.repo_structure
        dependencies := d.dependencies
        architecture := d.architecture
        code_files := d.code_files
        code_symbols := d.code_symbols
        verification_outputs := d.verification_outputs }

/-- `run_agent`: build the initial state, run the graph (the Python
defaults are `task_type="analyze_repo"`, `max_iterations=1`).  A raised
exception anywhere inside `graph.ainvoke` — `crash` carries its metadata —
is converted into the degraded, zero-scored state and returned normally.
The post-processing that attaches evaluation explanations mutates no
modelled field and absorbs its own failures. -/
def run_agent (env : Env) (fuel : Nat) (crash : Option ExcInfo)
    (task task_type : String) (max_iterations : Nat)
    (previous_repo_data : Option CacheBundle) : Option AgentState :=
  let init := agentInitialState task task_type max_iterations
    previous_repo_data
  match crash with
  | some e =>
      some { init with
        final_output := some (agentErrorMessage e)
        is_complete := false
        evaluation_scores := some zeroScores }
  | none => runFrom env fuel (.planner, init)

/-! ## Basic facts about the nodes and routers -/

theorem planning_node_iteration (s : AgentState) :
    (planning_node s).iteration_count = s.iteration_count + 1 := rfl

theorem planning_node_ctrl (s : AgentState) :
    (planning_node s).generation_count = s.generation_count ∧
    (planning_node s).max_iterations = s.max_iterations ∧
    (planning_node s).is_complete = s.is_complete :=
  ⟨rfl, rfl, rfl⟩

theorem reflection_node_ctrl (env : Env) (s : AgentState) :
    (reflection_node env s).iteration_count = s.iteration_count ∧
    (reflection_node env s).generation_count = s.generation_count ∧
    (reflection_node env s).max_iterations = s.max_iterations ∧
    (reflection_node env s).is_complete = s.is_complete :=
  ⟨rfl, rfl, rfl, rfl⟩

theorem reflection_node_notes_len (env : Env) (s : AgentState) :
    (reflection_node env s).reflection_notes.length =
      s.reflection_notes.length + 1 := by
  simp [reflection_node]

theorem generation_node_ctrl (env : Env) (s : AgentState) :
    (generation_node env s).iteration_count = s.iteration_count ∧
    (generation_node env s).generation_count = s.generation_count + 1 ∧
    (generation_node env s).max_iterations = s.max_iterations ∧
    (generation_node env s).is_complete = true :=
  ⟨rfl, rfl, rfl, rfl⟩

theorem evaluation_node_ctrl (s : AgentState) :
    (evaluation_node s).iteration_count = s.iteration_count ∧
    (evaluation_node s).generation_count = s.generation_count ∧
    (evaluation_node s).max_iterations = s.max_iterations ∧
    (evaluation_node s).is_complete = s.is_complete :=
  ⟨rfl, rfl, rfl, rfl⟩

theorem repo_analyzer_node_ctrl (env : Env) (s : AgentState) :
    (repo_analyzer_node env s).iteration_count = s.iteration_count ∧
    (repo_analyzer_node env s).generation_count = s.generation_count ∧
    (repo_analyzer_node env s).max_iterations = s.max_iterations ∧
    (repo_analyzer_node env s).is_complete = s.is_complete := by
  by_cases h1 : (pyTruthy s.code_symbols && pyTruthy s.verification_outputs)
      = true
  · simp [repo_analyzer_node, h1]
  · rcases h2 : env.analyzerDisk s with _ | cd <;>
      simp [repo_analyzer_node, h1, h2]

theorem retrieval_node_ctrl (env : Env) (s : AgentState) :
    (retrieval_node env s).iteration_count = s.iteration_count ∧
    (retrieval_node env s).generation_count = s.generation_count ∧
    (retrieval_node env s).max_iterations = s.max_iterations ∧
    (retrieval_node env s).is_complete = s.is_complete := by
  rcases h : env.retrieval s with msg | _ | chunks
  · simp [retrieval_node, h]
  · simp [retrieval_node, h]
  · cases chunks <;> simp [retrieval_node, h]

theorem reasoning_node_ctrl (env : Env) (s : AgentState) :
    (reasoning_node env s).iteration_count = s.iteration_count ∧
    (reasoning_node env s).generation_count = s.generation_count ∧
    (reasoning_node env s).max_iterations = s.max_iterations ∧
    (reasoning_node env s).is_complete = s.is_complete := by
  by_cases h1 : s.skip_reasoning = true
  · simp [reasoning_node, h1]
  · by_cases h2 : env.apiKeyPresent = true
    · rcases h3 : env.reasonerLLM s with _ | l <;>
        simp [reasoning_node, h1, h2, h3]
    · simp [reasoning_node, h1, h2]

theorem route_after_planning_ne_end {s : AgentState}
    (h : route_after_planning s ≠ "end") :
    s.iteration_count ≤ s.max_iterations := by
  unfold route_after_planning at h
  by_cases h1 : s.max_iterations < s.iteration_count
  · rw [if_pos h1] at h
    exact absurd rfl h
  · omega

theorem route_after_reflection_mem (s : AgentState) :
    route_after_reflection s = "continue" ∨
    route_after_reflection s = "retry" ∨
    route_after_reflection s = "end" := by
  unfold route_after_reflection
  split
  case isTrue h => exact h
  case isFalse => right; right; rfl

theorem route_after_reflection_continue {s : AgentState}
    (h : route_after_reflection s = "continue") :
    s.next_action = "continue" := by
  unfold route_after_reflection at h
  split at h
  case isTrue => exact h
  case isFalse => exact absurd h (by decide)

theorem route_after_reflection_retry {s : AgentState}
    (h : route_after_reflection s = "retry") :
    s.next_action = "retry" := by
  unfold route_after_reflection at h
  split at h
  case isTrue => exact h
  case isFalse => exact absurd h (by decide)

/-- Whenever the reflector runs at or above the generation ceiling, every
path (missing key, backend failure, parsed verdict of any content) forces
the `good` assessment and the `end` route. -/
theorem reflection_forced_end (env : Env) {s : AgentState}
    (hge : reflectorMaxGenerations ≤ s.generation_count) :
    (reflection_node env s).next_action = "end" ∧
    (reflection_node env s).reflection_assessment = some "good" := by
  unfold reflection_node reflection_result
  by_cases hk : (env.apiKeyPresent && pyTruthyStr s.final_output) = true
  · rcases hllm : env.reflLLM s with _ | ⟨a, crit, ci⟩ <;>
      simp [hk, hllm, hge]
  · simp [hk]

/-- The reflector emits `continue` or `retry` only strictly below the
generation ceiling. -/
theorem reflection_continue_retry {env : Env} {s : AgentState}
    (h : (reflection_node env s).next_action = "continue" ∨
      (reflection_node env s).next_action = "retry") :
    s.generation_count < reflectorMaxGenerations := by
  by_contra hge
  push_neg at hge
  have hend := (reflection_forced_end env hge).1
  rcases h with h | h <;> rw [hend] at h <;> exact absurd h (by decide)

/-- The reflector's routing output is always one of the three registered
edges. -/
theorem reflection_next_mem (env : Env) (s : AgentState) :
    (reflection_node env s).next_action = "end" ∨
    (reflection_node env s).next_action = "retry" ∨
    (reflection_node env s).next_action = "continue" := by
  unfold reflection_node reflection_result
  by_cases hk : (env.apiKeyPresent && pyTruthyStr s.final_output) = true
  · rcases hllm : env.reflLLM s with _ | ⟨a, crit, ci⟩
    · simp [hk, hllm]
    · by_cases hf : reflectorMaxGenerations ≤ s.generation_count
      · simp [hk, hllm, hf]
      · by_cases h1 : a = "needs_more_data" ∧ ci = false
        · simp [hk, hllm, hf, h1]
        · by_cases h2 : a = "needs_improvement" ∧ ci = true
          · simp [hk, hllm, hf, h1, h2]
          · by_cases h3 : a = "good" <;> simp [hk, hllm, hf, h1, h2, h3]
  · simp [hk]

/-! ## Transition analysis of the graph -/

/-- Characterisation of the internal transitions of the graph: which pairs
of nodes are connected, with which node result, and under which routing
condition. -/
theorem step_inl_cases {env : Env} {t t' : NodeTag} {s s' : AgentState}
    (h : step env (t, s) = .inl (t', s')) :
    (t = .planner ∧ s' = planning_node s ∧
      ((t' = .analyzer ∧ route_after_planning (planning_node s) = "analyze") ∨
       (t' = .retriever ∧ route_after_planning (planning_node s) = "retrieve") ∨
       (t' = .reasoner ∧ route_after_planning (planning_node s) = "reason") ∨
       t' = .evaluator)) ∨
    (t = .analyzer ∧ t' = .reasoner ∧ s' = repo_analyzer_node env s) ∨
    (t = .retriever ∧ t' = .reasoner ∧ s' = retrieval_node env s) ∨
    (t = .reasoner ∧ t' = .generator ∧ s' = reasoning_node env s) ∨
    (t = .generator ∧ t' = .reflector ∧ s' = generation_node env s) ∨
    (t = .reflector ∧ s' = reflection_node env s ∧
      (t' = .evaluator ∨
       (t' = .planner ∧ (reflection_node env s).next_action = "continue") ∨
       (t' = .generator ∧ (reflection_node env s).next_action = "retry"))) := by
  cases t
  case planner =>
    refine .inl ⟨rfl, ?_⟩
    dsimp only [step] at h
    split at h
    case isTrue hr =>
      obtain ⟨h1, h2⟩ := Prod.mk.injEq .. ▸ Sum.inl.inj h
      exact ⟨h2.symm, .inl ⟨h1.symm, hr⟩⟩
    case isFalse hr1 =>
      split at h
      case isTrue hr =>
        obtain ⟨h1, h2⟩ := Prod.mk.injEq .. ▸ Sum.inl.inj h
        exact ⟨h2.symm, .inr (.inl ⟨h1.symm, hr⟩)⟩
      case isFalse hr2 =>
        split at h
        case isTrue hr =>
          obtain ⟨h1, h2⟩ := Prod.mk.injEq .. ▸ Sum.inl.inj h
          exact ⟨h2.symm, .inr (.inr (.inl ⟨h1.symm, hr⟩))⟩
        case isFalse hr3 =>
          obtain ⟨h1, h2⟩ := Prod.mk.injEq .. ▸ Sum.inl.inj h
          exact ⟨h2.symm, .inr (.inr (.inr h1.symm))⟩
  case analyzer =>
    obtain ⟨h1, h2⟩ := Prod.mk.injEq .. ▸ Sum.inl.inj h
    exact .inr (.inl ⟨rfl, h1.symm, h2.symm⟩)
  case retriever =>
    obtain ⟨h1, h2⟩ := Prod.mk.injEq .. ▸ Sum.inl.inj h
    exact .inr (.inr (.inl ⟨rfl, h1.symm, h2.symm⟩))
  case reasoner =>
    obtain ⟨h1, h2⟩ := Prod.mk.injEq .. ▸ Sum.inl.inj h
    exact .inr (.inr (.inr (.inl ⟨rfl, h1.symm, h2.symm⟩)))
  case generator =>
    obtain ⟨h1, h2⟩ := Prod.mk.injEq .. ▸ Sum.inl.inj h
    exact .inr (.inr (.inr (.inr (.inl ⟨rfl, h1.symm, h2.symm⟩))))
  case reflector =>
    refine .inr (.inr (.inr (.inr (.inr ⟨rfl, ?_⟩))))
    dsimp only [step] at h
    split at h
    case isTrue hr =>
      obtain ⟨h1, h2⟩ := Prod.mk.injEq .. ▸ Sum.inl.inj h
      exact ⟨h2.symm, .inr (.inl ⟨h1.symm,
        route_after_reflection_continue hr⟩)⟩
    case isFalse hr1 =>
      split at h
      case isTrue hr =>
        obtain ⟨h1, h2⟩ := Prod.mk.injEq .. ▸ Sum.inl.inj h
        exact ⟨h2.symm, .inr (.inr ⟨h1.symm,
          route_after_reflection_retry hr⟩)⟩
      case isFalse hr2 =>
        obtain ⟨h1, h2⟩ := Prod.mk.injEq .. ▸ Sum.inl.inj h
        exact ⟨h2.symm, .inl h1.symm⟩
  case evaluator => exact absurd h (by simp [step])

/-- `END` is reached exactly from the evaluator, whose output carries the
computed scores. -/
theorem step_inr_cases {env : Env} {t : NodeTag} {s s₂ : AgentState}
    (h : step env (t, s) = .inr s₂) :
    t = .evaluator ∧ s₂ = evaluation_node s := by
  cases t
  case evaluator => exact ⟨rfl, (Sum.inr.inj h).symm⟩
  case planner =>
    dsimp only [step] at h
    split at h <;> try split at h
    all_goals first
      | exact absurd h (by simp)
      | (split at h <;> exact absurd h (by simp))
  case reflector =>
    dsimp only [step] at h
    split at h <;> try split at h
    all_goals exact absurd h (by simp)
  all_goals exact absurd h (by simp [step])

/-! ## Fuelled-run induction principles -/

theorem runFrom_inv {env : Env} {P : NodeTag × AgentState → Prop}
    {Q : AgentState → Prop}
    (hstep : ∀ c c', step env c = .inl c' → P c → P c')
    (hout : ∀ c s, step env c = .inr s → P c → Q s) :
    ∀ fuel c s, P c → runFrom env fuel c = some s → Q s := by
  intro fuel
  induction fuel with
  | zero => intro c s _ hrun; simp [runFrom] at hrun
  | succ n ih =>
      intro c s hP hrun
      rw [runFrom] at hrun
      cases hst : step env c with
      | inr s2 =>
          rw [hst] at hrun
          dsimp only at hrun
          injection hrun with h2
          subst h2
          exact hout c _ hst hP
      | inl c' =>
          rw [hst] at hrun
          dsimp only at hrun
          exact ih c' s (hstep c c' hst hP) hrun

theorem runFromCount_inv {env : Env}
    {P : NodeTag × AgentState → Nat → Prop} {Q : AgentState → Nat → Prop}
    (hstep : ∀ c k c', step env c = .inl c' → P c k →
      P c' (if c.1 = .generator then k + 1 else k))
    (hout : ∀ c k s, step env c = .inr s → P c k → Q s k) :
    ∀ fuel c k s k', P c k → runFromCount env fuel c k = some (s, k') →
      Q s k' := by
  intro fuel
  induction fuel with
  | zero => intro c k s k' _ hrun; simp [runFromCount] at hrun
  | succ n ih =>
      intro c k s k' hP hrun
      rw [runFromCount] at hrun
      cases hst : step env c with
      | inr s2 =>
          rw [hst] at hrun
          dsimp only at hrun
          injection hrun with h2
          obtain ⟨h3, h4⟩ := Prod.mk.injEq .. ▸ h2
          subst h3
          subst h4
          exact hout c k _ hst hP
      | inl c' =>
          rw [hst] at hrun
          dsimp only at hrun
          exact ih c' _ s k' (hstep c k c' hst hP) hrun

/-! ## Range facts about the metrics -/

theorem ite_nn (p : Prop) [Decidable p] {x y : ℚ} (hx : 0 ≤ x)
    (hy : 0 ≤ y) : 0 ≤ if p then x else y := by
  split <;> assumption

theorem task_completion_bounds (s : AgentState) :
    0 ≤ calculate_task_completion_score s ∧
    calculate_task_completion_score s ≤ 100 := by
  unfold calculate_task_completion_score
  constructor
  · refine le_min ?_ (by norm_num)
    repeat' split
    all_goals norm_num
  · exact min_le_right _ _

theorem reasoning_quality_bounds (s : AgentState) :
    0 ≤ calculate_reasoning_quality_score s ∧
    calculate_reasoning_quality_score s ≤ 100 := by
  unfold calculate_reasoning_quality_score
  constructor
  · refine le_min ?_ (by norm_num)
    repeat' split
    all_goals norm_num
  · exact min_le_right _ _

theorem tool_effectiveness_bounds (s : AgentState) :
    0 ≤ calculate_tool_effectiveness_score s ∧
    calculate_tool_effectiveness_score s ≤ 100 := by
  unfold calculate_tool_effectiveness_score
  constructor
  · refine le_min ?_ (by norm_num)
    repeat' split
    all_goals norm_num
  · exact min_le_right _ _

theorem check_reflection_incorporated_snd_bounds (s : AgentState) :
    0 ≤ (check_reflection_incorporated s).2 ∧
    (check_reflection_incorporated s).2 ≤ 30 := by
  unfold check_reflection_incorporated
  dsimp only
  split
  · norm_num
  · constructor
    · refine le_min ?_ (by norm_num)
      repeat' split
      all_goals norm_num
    · exact min_le_right _ _

theorem reflection_quality_bounds (s : AgentState) :
    0 ≤ (calculate_reflection_quality_score s).getD 0 ∧
    (calculate_reflection_quality_score s).getD 0 ≤ 100 := by
  unfold calculate_reflection_quality_score
  cases s.final_output with
  | none => norm_num
  | some out =>
      simp only [Option.getD_some]
      constructor
      · refine le_min ?_ (by norm_num)
        repeat' split
        all_goals norm_num
      · exact min_le_right _ _

theorem code_question_quality_bounds (s : AgentState) :
    0 ≤ evaluate_code_question_quality s ∧
    evaluate_code_question_quality s ≤ 100 := by
  unfold evaluate_code_question_quality
  dsimp only
  constructor
  · refine le_min ?_ (by norm_num)
    refine add_nonneg ?_ (check_reflection_incorporated_snd_bounds s).1
    repeat' apply add_nonneg
    all_goals repeat' split
    all_goals norm_num
  · exact min_le_right _ _

set_option maxHeartbeats 2000000 in
theorem linkedin_post_quality_bounds (s : AgentState) :
    0 ≤ evaluate_linkedin_post_quality s ∧
    evaluate_linkedin_post_quality s ≤ 100 := by
  unfold evaluate_linkedin_post_quality
  dsimp only
  constructor
  · refine le_min ?_ (by norm_num)
    refine add_nonneg (add_nonneg (add_nonneg (add_nonneg (add_nonneg
      (add_nonneg (add_nonneg ?_ ?_) ?_) ?_) ?_) ?_) ?_) ?_
    all_goals
      repeat
        first
        | refine ite_nn _ (by norm_num) ?_
        | norm_num
  · exact min_le_right _ _

theorem repository_analysis_quality_bounds (s : AgentState) :
    0 ≤ evaluate_repository_analysis_quality s ∧
    evaluate_repository_analysis_quality s ≤ 100 := by
  unfold evaluate_repository_analysis_quality
  exact ⟨le_max_left _ _, max_le (by norm_num) (min_le_right _ _)⟩

theorem general_quality_bounds (s : AgentState) :
    0 ≤ evaluate_general_quality s ∧
    evaluate_general_quality s ≤ 100 := by
  unfold evaluate_general_quality
  dsimp only
  split
  · norm_num
  · constructor
    · refine le_min ?_ (by norm_num)
      repeat' apply add_nonneg
      all_goals repeat' split
      all_goals norm_num
    · exact min_le_right _ _

theorem output_quality_bounds (s : AgentState) :
    0 ≤ calculate_output_quality_score s ∧
    calculate_output_quality_score s ≤ 100 := by
  unfold calculate_output_quality_score
  split
  · norm_num
  · split
    · exact code_question_quality_bounds s
    · split
      · exact linkedin_post_quality_bounds s
      · split
        · exact repository_analysis_quality_bounds s
        · exact general_quality_bounds s

/-- With all five sub-scores present, the matched weight is exactly 1 and
the overall score is the plain weighted sum. -/
theorem overall_score_full (a b c d e : ℚ) :
    calculate_overall_score ⟨some a, some b, some c, some d, some e⟩ =
      a * (35/100) + b * (25/100) + c * (15/100) + d * (10/100) +
        e * (15/100) := by
  unfold calculate_overall_score
  norm_num

theorem overall_score_full_bounds {a b c d e : ℚ}
    (ha : 0 ≤ a ∧ a ≤ 100) (hb : 0 ≤ b ∧ b ≤ 100) (hc : 0 ≤ c ∧ c ≤ 100)
    (hd : 0 ≤ d ∧ d ≤ 100) (he : 0 ≤ e ∧ e ≤ 100) :
    0 ≤ calculate_overall_score ⟨some a, some b, some c, some d, some e⟩ ∧
    calculate_overall_score ⟨some a, some b, some c, some d, some e⟩ ≤ 100 := by
  rw [overall_score_full]
  obtain ⟨ha1, ha2⟩ := ha
  obtain ⟨hb1, hb2⟩ := hb
  obtain ⟨hc1, hc2⟩ := hc
  obtain ⟨hd1, hd2⟩ := hd
  obtain ⟨he1, he2⟩ := he
  constructor <;> nlinarith

/-- Every score dictionary produced by `AgentEvaluator.evaluate` has all
six entries inside `[0, 100]`. -/
theorem evaluate_bounds (s : AgentState) :
    (0 ≤ (AgentEvaluator_evaluate s).task_completion ∧
      (AgentEvaluator_evaluate s).task_completion ≤ 100) ∧
    (0 ≤ (AgentEvaluator_evaluate s).reasoning_quality ∧
      (AgentEvaluator_evaluate s).reasoning_quality ≤ 100) ∧
    (0 ≤ (AgentEvaluator_evaluate s).tool_effectiveness ∧
      (AgentEvaluator_evaluate s).tool_effectiveness ≤ 100) ∧
    (0 ≤ (AgentEvaluator_evaluate s).reflection_quality ∧
      (AgentEvaluator_evaluate s).reflection_quality ≤ 100) ∧
    (0 ≤ (AgentEvaluator_evaluate s).output_quality ∧
      (AgentEvaluator_evaluate s).output_quality ≤ 100) ∧
    (0 ≤ (AgentEvaluator_evaluate s).overall_score ∧
      (AgentEvaluator_evaluate s).overall_score ≤ 100) := by
  refine ⟨task_completion_bounds s, reasoning_quality_bounds s,
    tool_effectiveness_bounds s, reflection_quality_bounds s,
    output_quality_bounds s, ?_⟩
  exact overall_score_full_bounds (task_completion_bounds s)
    (reasoning_quality_bounds s) (tool_effectiveness_bounds s)
    (reflection_quality_bounds s) (output_quality_bounds s)

/-! ## Run-level invariants -/

theorem agentInitialState_fields (task task_type : String)
    (max_iterations : Nat) (prior : Option CacheBundle) :
    (agentInitialState task task_type max_iterations prior).iteration_count
        = 0 ∧
    (agentInitialState task task_type max_iterations prior).generation_count
        = 0 ∧
    (agentInitialState task task_type max_iterations prior).max_iterations
        = max_iterations ∧
    (agentInitialState task task_type max_iterations prior).is_complete
        = false := by
  cases prior <;> exact ⟨rfl, rfl, rfl, rfl⟩

/-- The router bound: every internal transition keeps
`iteration_count ≤ max_iterations` away from the evaluator and
`iteration_count ≤ max_iterations + 1` at the evaluator. -/
theorem run_iteration_bound {env : Env} {fuel : Nat}
    {task task_type : String} {mi : Nat} {prior : Option CacheBundle}
    {s : AgentState}
    (hrun : runFrom env fuel
      (.planner, agentInitialState task task_type mi prior) = some s) :
    s.iteration_count ≤ s.max_iterations + 1 := by
  refine runFrom_inv (P := fun c =>
      if c.1 = NodeTag.evaluator then
        c.2.iteration_count ≤ c.2.max_iterations + 1
      else c.2.iteration_count ≤ c.2.max_iterations)
    (Q := fun s => s.iteration_count ≤ s.max_iterations + 1)
    ?_ ?_ fuel _ s ?_ hrun
  · rintro ⟨t, s0⟩ ⟨t', s'⟩ hst hP
    rcases step_inl_cases hst with
      ⟨ht, hs', hroute⟩ | ⟨ht, ht', hs'⟩ | ⟨ht, ht', hs'⟩ | ⟨ht, ht', hs'⟩ |
      ⟨ht, ht', hs'⟩ | ⟨ht, hs', hroute⟩
    · subst ht; subst hs'
      simp only [reduceCtorEq, if_false] at hP
      obtain ⟨hg, hm, _⟩ := planning_node_ctrl s0
      rcases hroute with ⟨ht', hr⟩ | ⟨ht', hr⟩ | ⟨ht', hr⟩ | ht' <;> subst ht'
      · have := route_after_planning_ne_end (s := planning_node s0)
          (by rw [hr]; decide)
        simpa using this
      · have := route_after_planning_ne_end (s := planning_node s0)
          (by rw [hr]; decide)
        simpa using this
      · have := route_after_planning_ne_end (s := planning_node s0)
          (by rw [hr]; decide)
        simpa using this
      · simp only [if_true]
        rw [planning_node_iteration, hm]
        omega
    · subst ht; subst ht'; subst hs'
      simp only [reduceCtorEq, if_false] at hP ⊢
      obtain ⟨hi, _, hm, _⟩ := repo_analyzer_node_ctrl env s0
      omega
    · subst ht; subst ht'; subst hs'
      simp only [reduceCtorEq, if_false] at hP ⊢
      obtain ⟨hi, _, hm, _⟩ := retrieval_node_ctrl env s0
      omega
    · subst ht; subst ht'; subst hs'
      simp only [reduceCtorEq, if_false] at hP ⊢
      obtain ⟨hi, _, hm, _⟩ := reasoning_node_ctrl env s0
      omega
    · subst ht; subst ht'; subst hs'
      simp only [reduceCtorEq, if_false] at hP ⊢
      obtain ⟨hi, _, hm, _⟩ := generation_node_ctrl env s0
      omega
    · subst ht; subst hs'
      simp only [reduceCtorEq, if_false] at hP
      obtain ⟨hi, _, hm, _⟩ := reflection_node_ctrl env s0
      rcases hroute with ht' | ⟨ht', _⟩ | ⟨ht', _⟩ <;> subst ht' <;>
        simp only [reduceCtorEq, if_false, if_true] <;> omega
  · rintro ⟨t, s0⟩ s2 hst hP
    obtain ⟨ht, hs2⟩ := step_inr_cases hst
    subst ht; subst hs2
    simp only [if_true] at hP
    obtain ⟨hi, _, hm, _⟩ := evaluation_node_ctrl s0
    omega
  · obtain ⟨hi, _, hm, _⟩ := agentInitialState_fields task task_type mi prior
    simp only [reduceCtorEq, if_false]
    omega

/-- Counting generator invocations: every terminating run from a fresh
initial state performs at most `reflectorMaxGenerations` of them, and the
final `generation_count` equals that number. -/
theorem run_generation_bound {env : Env} {fuel : Nat}
    {task task_type : String} {mi : Nat} {prior : Option CacheBundle}
    {s : AgentState} {k : Nat}
    (hrun : runFromCount env fuel
      (.planner, agentInitialState task task_type mi prior) 0 = some (s, k)) :
    k ≤ reflectorMaxGenerations ∧ s.generation_count = k := by
  have main := runFromCount_inv
    (P := fun c k => c.2.generation_count = k ∧
      k ≤ reflectorMaxGenerations ∧
      (c.1 ≠ NodeTag.reflector ∧ c.1 ≠ NodeTag.evaluator → k ≤ 2))
    (Q := fun s k => k ≤ reflectorMaxGenerations ∧ s.generation_count = k)
    ?_ ?_ fuel _ 0 s k ?_ hrun
  · exact main
  · rintro ⟨t, s0⟩ k0 ⟨t', s'⟩ hst ⟨hgc, hk3, hk2⟩
    dsimp only at hgc hk2 ⊢
    rcases step_inl_cases hst with
      ⟨ht, hs', hroute⟩ | ⟨ht, ht', hs'⟩ | ⟨ht, ht', hs'⟩ | ⟨ht, ht', hs'⟩ |
      ⟨ht, ht', hs'⟩ | ⟨ht, hs', hroute⟩
    · subst ht; subst hs'
      have h2 := hk2 ⟨by simp, by simp⟩
      simp only [reduceCtorEq, if_false]
      obtain ⟨hg, _, _⟩ := planning_node_ctrl s0
      refine ⟨by omega, hk3, fun _ => h2⟩
    · subst ht; subst ht'; subst hs'
      have h2 := hk2 ⟨by simp, by simp⟩
      simp only [reduceCtorEq, if_false]
      obtain ⟨_, hg, _, _⟩ := repo_analyzer_node_ctrl env s0
      exact ⟨by omega, hk3, fun _ => h2⟩
    · subst ht; subst ht'; subst hs'
      have h2 := hk2 ⟨by simp, by simp⟩
      simp only [reduceCtorEq, if_false]
      obtain ⟨_, hg, _, _⟩ := retrieval_node_ctrl env s0
      exact ⟨by omega, hk3, fun _ => h2⟩
    · subst ht; subst ht'; subst hs'
      have h2 := hk2 ⟨by simp, by simp⟩
      simp only [reduceCtorEq, if_false]
      obtain ⟨_, hg, _, _⟩ := reasoning_node_ctrl env s0
      exact ⟨by omega, hk3, fun _ => h2⟩
    · subst ht; subst ht'; subst hs'
      have h2 := hk2 ⟨by simp, by simp⟩
      simp only [if_true]
      obtain ⟨_, hg, _, _⟩ := generation_node_ctrl env s0
      refine ⟨by omega, by unfold reflectorMaxGenerations; omega, ?_⟩
      rintro ⟨hcontra, _⟩
      exact absurd rfl hcontra
    · subst ht; subst hs'
      obtain ⟨_, hg, _, _⟩ := reflection_node_ctrl env s0
      simp only [reduceCtorEq, if_false]
      rcases hroute with ht' | ⟨ht', hcont⟩ | ⟨ht', hretry⟩ <;> subst ht'
      · exact ⟨by omega, hk3, by rintro ⟨_, h⟩; exact absurd rfl h⟩
      · have hlt := reflection_continue_retry (Or.inl hcont)
        refine ⟨by omega, hk3, fun _ => ?_⟩
        unfold reflectorMaxGenerations at hlt
        omega
      · have hlt := reflection_continue_retry (Or.inr hretry)
        refine ⟨by omega, hk3, fun _ => ?_⟩
        unfold reflectorMaxGenerations at hlt
        omega
  · rintro ⟨t, s0⟩ k0 s2 hst ⟨hgc, hk3, _⟩
    dsimp only at hgc
    obtain ⟨ht, hs2⟩ := step_inr_cases hst
    subst ht; subst hs2
    obtain ⟨_, hg, _, _⟩ := evaluation_node_ctrl s0
    exact ⟨hk3, by omega⟩
  · obtain ⟨_, hg, _, _⟩ := agentInitialState_fields task task_type mi prior
    exact ⟨hg, by decide, fun _ => by decide⟩

/-- Once the generator has run, `is_complete` stays `true` to the end of
the run. -/
theorem run_complete_of_generated {env : Env} {fuel : Nat}
    {task task_type : String} {mi : Nat} {prior : Option CacheBundle}
    {s : AgentState}
    (hrun : runFrom env fuel
      (.planner, agentInitialState task task_type mi prior) = some s)
    (hgen : 1 ≤ s.generation_count) : s.is_complete = true := by
  have main := runFrom_inv
    (P := fun c => 1 ≤ c.2.generation_count → c.2.is_complete = true)
    (Q := fun s => 1 ≤ s.generation_count → s.is_complete = true)
    ?_ ?_ fuel _ s ?_ hrun
  · exact main hgen
  · rintro ⟨t, s0⟩ ⟨t', s'⟩ hst hP
    rcases step_inl_cases hst with
      ⟨ht, hs', hroute⟩ | ⟨ht, ht', hs'⟩ | ⟨ht, ht', hs'⟩ | ⟨ht, ht', hs'⟩ |
      ⟨ht, ht', hs'⟩ | ⟨ht, hs', hroute⟩
    · subst hs'
      obtain ⟨hg, _, hc⟩ := planning_node_ctrl s0
      intro hx; rw [hg] at hx; rw [hc]; exact hP hx
    · subst hs'
      obtain ⟨_, hg, _, hc⟩ := repo_analyzer_node_ctrl env s0
      intro hx; rw [hg] at hx; rw [hc]; exact hP hx
    · subst hs'
      obtain ⟨_, hg, _, hc⟩ := retrieval_node_ctrl env s0
      intro hx; rw [hg] at hx; rw [hc]; exact hP hx
    · subst hs'
      obtain ⟨_, hg, _, hc⟩ := reasoning_node_ctrl env s0
      intro hx; rw [hg] at hx; rw [hc]; exact hP hx
    · subst hs'
      obtain ⟨_, _, _, hc⟩ := generation_node_ctrl env s0
      intro _; exact hc
    · subst hs'
      obtain ⟨_, hg, _, hc⟩ := reflection_node_ctrl env s0
      intro hx; rw [hg] at hx; rw [hc]; exact hP hx
  · rintro ⟨t, s0⟩ s2 hst hP
    obtain ⟨ht, hs2⟩ := step_inr_cases hst
    subst hs2
    obtain ⟨_, hg, _, hc⟩ := evaluation_node_ctrl s0
    intro hx; rw [hg] at hx; rw [hc]; exact hP hx
  · obtain ⟨_, hg, _, _⟩ := agentInitialState_fields task task_type mi prior
    intro hx; rw [hg] at hx; omega

/-- Every normal termination of the graph passes through the evaluator,
so the returned state carries the freshly computed scores. -/
theorem run_scores_set {env : Env} {fuel : Nat} {c : NodeTag × AgentState}
    {s : AgentState} (hrun : runFrom env fuel c = some s) :
    ∃ s0, s = evaluation_node s0 := by
  refine runFrom_inv (P := fun _ => True)
    (Q := fun s => ∃ s0, s = evaluation_node s0)
    (fun _ _ _ _ => trivial) ?_ fuel c s trivial hrun
  rintro ⟨t, s0⟩ s2 hst _
  obtain ⟨_, hs2⟩ := step_inr_cases hst
  exact ⟨s0, hs2⟩

/-! ## Concrete environments and states used by witnesses and
counterexamples -/

/-- An environment with constant oracle outcomes. -/
def mkReflEnv (key : Bool) (o : ReflOutcome) : Env where
  apiKeyPresent := key
  reflLLM := fun _ => o
  genOutput := fun _ => "generated output"
  reasonerLLM := fun _ => .fail
  analyzerDisk := fun _ => none
  analyzerScan := fun _ =>
    { repo_structure := [("name", "Simple-RAG")]
      code_files := [("main.py", "code")]
      dependencies := [("langgraph", "0.0.26")]
      architecture := [("src", "module")]
      code_symbols := [("total_classes", "12")]
      verification_outputs := [("pytest_collect", "203 tests collected")] }
  retrieval := fun _ => .emptyStore

/-- A knowledge-base question as planned by the planner: the planner sets
`skip_reflection := true` for `answer_question` tasks. -/
def c1PlannedState : AgentState :=
  planning_node (create_initial_state
    "What does the retriever return for AI questions?" "answer_question" 3)

/-- The same run at the moment the reflector fires: one generation done,
output present. -/
def c1ReflectorInput : AgentState :=
  { c1PlannedState with
    final_output := some "The retriever returns the top passages."
    generation_count := 1 }

/-! ## Claims -/

/-- C1, counterexample.  The claim says: with `skipReflection` true at plan
time, the Reflector appends one note and resolves `nextAction` to `End`
without a completion-backend call.  On this run the planner did set
`skip_reflection = true`, yet with an API key present and a
`needs_improvement` verdict the reflector both reaches the backend and
routes to `retry`: `reflection_node` never reads `skip_reflection`. -/
theorem claim_C1_counterexample :
    c1PlannedState.skip_reflection = true ∧
    c1ReflectorInput.skip_reflection = true ∧
    reflectionCallsBackend
      (mkReflEnv true (.parsed "needs_improvement" "add passage sources" true))
      c1ReflectorInput = true ∧
    (reflection_node
      (mkReflEnv true (.parsed "needs_improvement" "add passage sources" true))
      c1ReflectorInput).next_action = "retry" ∧
    ("retry" : String) ≠ "end" := by
  refine ⟨rfl, rfl, rfl, rfl, by decide⟩

/-- C1, amended: the Reflector never consults `skipReflection`; it
short-circuits — exactly one appended note, `nextAction = End`, assessment
`good`, no completion-backend call — precisely when the API key is missing
or `finalOutput` is empty, and otherwise it does call the backend.  (On
every invocation it appends exactly one note.) -/
theorem claim_C1_amended (env : Env) (s : AgentState)
    (h : reflectionCallsBackend env s = false) :
    (reflection_node env s).reflection_notes.length =
      s.reflection_notes.length + 1 ∧
    (reflection_node env s).next_action = "end" ∧
    (reflection_node env s).reflection_assessment = some "good" := by
  unfold reflectionCallsBackend at h
  refine ⟨reflection_node_notes_len env s, ?_, ?_⟩ <;>
    simp [reflection_node, reflection_result, h]

theorem claim_C1_amended_witness :
    (reflection_node (mkReflEnv false .fail)
      (create_initial_state "hi" "general" 1)).reflection_notes.length =
      (create_initial_state "hi" "general" 1).reflection_notes.length + 1 ∧
    (reflection_node (mkReflEnv false .fail)
      (create_initial_state "hi" "general" 1)).next_action = "end" ∧
    (reflection_node (mkReflEnv false .fail)
      (create_initial_state "hi" "general" 1)).reflection_assessment =
      some "good" :=
  claim_C1_amended (mkReflEnv false .fail)
    (create_initial_state "hi" "general" 1) (by decide)

/-- C6: the reflector verdict mapping is total.  For a reflector actually
consulting the backend below the generation ceiling: every environment
yields one of the three routes (and the downstream router is equally
total); each of the three assessments crossed with both `canImprove`
values maps exactly per the table — `good → end`,
`needs_improvement × true → retry`, `needs_improvement × false → end`,
`needs_more_data × false → continue`, `needs_more_data × true → end` — any
other assessment maps to `end`, and an unparseable/failed interaction maps
to `end`. -/
theorem claim_C6 (s : AgentState) (crit : String)
    (hout : pyTruthyStr s.final_output = true)
    (hgc : s.generation_count < reflectorMaxGenerations) :
    (∀ env : Env, (reflection_node env s).next_action = "end" ∨
      (reflection_node env s).next_action = "retry" ∨
      (reflection_node env s).next_action = "continue") ∧
    (∀ s2 : AgentState, route_after_reflection s2 = "continue" ∨
      route_after_reflection s2 = "retry" ∨
      route_after_reflection s2 = "end") ∧
    (∀ ci, (reflection_node (mkReflEnv true (.parsed "good" crit ci))
      s).next_action = "end") ∧
    (reflection_node (mkReflEnv true (.parsed "needs_improvement" crit true))
      s).next_action = "retry" ∧
    (reflection_node (mkReflEnv true (.parsed "needs_improvement" crit false))
      s).next_action = "end" ∧
    (reflection_node (mkReflEnv true (.parsed "needs_more_data" crit false))
      s).next_action = "continue" ∧
    (reflection_node (mkReflEnv true (.parsed "needs_more_data" crit true))
      s).next_action = "end" ∧
    (∀ a ci, a ≠ "good" → a ≠ "needs_improvement" → a ≠ "needs_more_data" →
      (reflection_node (mkReflEnv true (.parsed a crit ci)) s).next_action
        = "end") ∧
    (reflection_node (mkReflEnv true .fail) s).next_action = "end" := by
  have hf : ¬ reflectorMaxGenerations ≤ s.generation_count := by omega
  refine ⟨?_, route_after_reflection_mem, ?_, ?_, ?_, ?_, ?_, ?_, ?_⟩
  · intro env
    rcases reflection_next_mem env s with h | h | h
    · exact .inl h
    · exact .inr (.inl h)
    · exact .inr (.inr h)
  · intro ci
    cases ci <;>
      simp [reflection_node, reflection_result, mkReflEnv, hout, hf]
  · simp [reflection_node, reflection_result, mkReflEnv, hout, hf]
  · simp [reflection_node, reflection_result, mkReflEnv, hout, hf]
  · simp [reflection_node, reflection_result, mkReflEnv, hout, hf]
  · simp [reflection_node, reflection_result, mkReflEnv, hout, hf]
  · intro a ci ha1 ha2 ha3
    simp [reflection_node, reflection_result, mkReflEnv, hout, hf, ha1,
      ha2, ha3]
  · simp [reflection_node, reflection_result, mkReflEnv, hout]

theorem claim_C6_witness :
    (∀ env : Env, (reflection_node env
        { create_initial_state "explain embeddings" "answer_question" 1 with
          final_output := some "Embeddings map text to vectors." }).next_action
          = "end" ∨
      (reflection_node env
        { create_initial_state "explain embeddings" "answer_question" 1 with
          final_output := some "Embeddings map text to vectors." }).next_action
          = "retry" ∨
      (reflection_node env
        { create_initial_state "explain embeddings" "answer_question" 1 with
          final_output := some "Embeddings map text to vectors." }).next_action
          = "continue") ∧
    (∀ s2 : AgentState, route_after_reflection s2 = "continue" ∨
      route_after_reflection s2 = "retry" ∨
      route_after_reflection s2 = "end") ∧
    (∀ ci, (reflection_node (mkReflEnv true (.parsed "good" "fine" ci))
      { create_initial_state "explain embeddings" "answer_question" 1 with
        final_output := some "Embeddings map text to vectors." }).next_action
        = "end") ∧
    (reflection_node (mkReflEnv true (.parsed "needs_improvement" "fine" true))
      { create_initial_state "explain embeddings" "answer_question" 1 with
        final_output := some "Embeddings map text to vectors." }).next_action
        = "retry" ∧
    (reflection_node (mkReflEnv true (.parsed "needs_improvement" "fine" false))
      { create_initial_state "explain embeddings" "answer_question" 1 with
        final_output := some "Embeddings map text to vectors." }).next_action
        = "end" ∧
    (reflection_node (mkReflEnv true (.parsed "needs_more_data" "fine" false))
      { create_initial_state "explain embeddings" "answer_question" 1 with
        final_output := some "Embeddings map text to vectors." }).next_action
        = "continue" ∧
    (reflection_node (mkReflEnv true (.parsed "needs_more_data" "fine" true))
      { create_initial_state "explain embeddings" "answer_question" 1 with
        final_output := some "Embeddings map text to vectors." }).next_action
        = "end" ∧
    (∀ a ci, a ≠ "good" → a ≠ "needs_improvement" → a ≠ "needs_more_data" →
      (reflection_node (mkReflEnv true (.parsed a "fine" ci))
        { create_initial_state "explain embeddings" "answer_question" 1 with
          final_output := some "Embeddings map text to vectors." }).next_action
          = "end") ∧
    (reflection_node (mkReflEnv true .fail)
      { create_initial_state "explain embeddings" "answer_question" 1 with
        final_output := some "Embeddings map text to vectors." }).next_action
        = "end" :=
  claim_C6
    { create_initial_state "explain embeddings" "answer_question" 1 with
      final_output := some "Embeddings map text to vectors." }
    "fine" (by decide) (by decide)

/-- The general-task state of the C7 counterexample: lexically trivial
(greeting) and mentioning a code keyword, with no cached evidence. -/
def c7State : AgentState := create_initial_state "hello file" "general" 1

/-- C7, counterexample.  The claim says the trivial-query row matches
first, giving `Reason` with `skipReasoning = true`.  The code checks the
code-keyword row first: this trivial, keyword-bearing task is routed to
`Analyze` with `skipReasoning = false`. -/
theorem claim_C7_counterexample :
    has_repo_data c7State = false ∧
    isTrivialQuery c7State.task = true ∧
    mentionsCodeKeyword (pyLower c7State.task) = true ∧
    (planning_node c7State).next_action = "analyze" ∧
    (planning_node c7State).skip_reasoning = false ∧
    (planning_node c7State).skip_reflection = true ∧
    ¬((planning_node c7State).next_action = "reason" ∧
      (planning_node c7State).skip_reasoning = true) := by
  refine ⟨rfl, by decide, rfl, rfl, rfl, rfl, by decide⟩

/-- C7, amended: in the general branch the code-keyword row precedes the
trivial-query row.  A General-kind task with no cached evidence that
mentions a code keyword takes `Analyze` with `skipReflection = true` and
`skipReasoning = false` (even if lexically trivial); the trivial-query row
fires only when no code keyword matches. -/
theorem claim_C7_amended (s : AgentState)
    (h1 : s.task_type ≠ "analyze_repo")
    (h2 : s.task_type ≠ "answer_question")
    (h3 : s.task_type ≠ "generate_content")
    (h4 : has_repo_data s = false) :
    (mentionsCodeKeyword (pyLower s.task) = true →
      (planning_node s).next_action = "analyze" ∧
      (planning_node s).skip_reflection = true ∧
      (planning_node s).skip_reasoning = false) ∧
    (mentionsCodeKeyword (pyLower s.task) = false →
      isTrivialQuery s.task = true →
      (planning_node s).next_action = "reason" ∧
      (planning_node s).skip_reasoning = true ∧
      (planning_node s).skip_reflection = true) := by
  constructor
  · intro hkw
    refine ⟨?_, ?_, ?_⟩ <;>
      simp [planning_node, planner_decision, h1, h2, h3, h4, hkw]
  · intro hkw htriv
    refine ⟨?_, ?_, ?_⟩ <;>
      simp [planning_node, planner_decision, h1, h2, h3, h4, hkw, htriv]

theorem claim_C7_amended_witness :
    (mentionsCodeKeyword (pyLower c7State.task) = true →
      (planning_node c7State).next_action = "analyze" ∧
      (planning_node c7State).skip_reflection = true ∧
      (planning_node c7State).skip_reasoning = false) ∧
    (mentionsCodeKeyword (pyLower c7State.task) = false →
      isTrivialQuery c7State.task = true →
      (planning_node c7State).next_action = "reason" ∧
      (planning_node c7State).skip_reasoning = true ∧
      (planning_node c7State).skip_reflection = true) :=
  claim_C7_amended c7State (by decide) (by decide) (by decide) (by decide)

/-! C8: the cache round trip -/

/-- Two sampled mtimes for the same files. -/
def c8Files : List (String × Nat) := [("a.py", 10), ("b.py", 20)]

/-- The same files after `a.py`'s modification time changed from 10 to 15:
the sampled maximum is still 20. -/
def c8FilesTouched : List (String × Nat) := [("a.py", 15), ("b.py", 20)]

/-- An empty cache directory with a 24-unit TTL. -/
def c8Cache : PersistentCache String := ⟨24, []⟩

/-- C8, counterexample.  The claim says that after any sampled source
file's modification time changes, `Get` returns absent.  Here `a.py`'s
mtime changes (10 → 15) but the sampled maximum stays 20, the key is
unchanged, and `Get` still returns the stored bundle. -/
theorem claim_C8_counterexample :
    c8Files.map Prod.fst = c8FilesTouched.map Prod.fst ∧
    c8Files ≠ c8FilesTouched ∧
    cacheGet (cacheSet c8Cache "/repo" c8Files 0 100 "the bundle")
      "/repo" c8FilesTouched 0 100 = some "the bundle" := by
  refine ⟨rfl, by decide, rfl⟩

/-- C8, amended: `Set(root, bundle)` followed immediately by `Get(root)`
with unchanged sampled mtimes returns the stored bundle; `Get` returns
absent after a change to the sampled mtimes exactly when the change alters
the maximum sampled mtime (the key hashes the root path together with that
maximum, so changes below the maximum are not detected). -/
theorem storeLookup_none_filter {α : Type} (k : String × Nat)
    (p : (String × Nat) × Nat × α → Bool)
    (l : List ((String × Nat) × Nat × α))
    (h : storeLookup k l = none) : storeLookup k (l.filter p) = none := by
  induction l with
  | nil => simp [storeLookup, List.filter]
  | cons e rest ih =>
      unfold storeLookup at h
      by_cases he : e.1 = k
      · rw [if_pos he] at h
        exact absurd h (by simp)
      · rw [if_neg he] at h
        simp only [List.filter]
        cases p e
        · exact ih h
        · unfold storeLookup
          rw [if_neg he]
          exact ih h

theorem claim_C8_amended {α : Type} (c : PersistentCache α) (root : String)
    (files files' : List (String × Nat)) (dirM dirM' now : Nat) (b : α)
    (hmax : sampledLatestMtime files' dirM' ≠ sampledLatestMtime files dirM)
    (hc : storeLookup (getCacheKey root files' dirM') c.store = none) :
    cacheGet (cacheSet c root files dirM now b) root files dirM now = some b ∧
    cacheGet (cacheSet c root files dirM now b) root files' dirM' now
      = none := by
  constructor
  · unfold cacheGet cacheSet storeLookup
    simp only [if_pos rfl]
    have : now - now = 0 := by omega
    simp [this]
  · have hkey : ¬ (getCacheKey root files dirM = getCacheKey root files' dirM')
        := by
      unfold getCacheKey
      intro hEq
      exact hmax ((Prod.mk.injEq .. ▸ hEq).2.symm)
    unfold cacheGet cacheSet storeLookup
    rw [if_neg hkey]
    rw [storeLookup_none_filter _ _ _ hc]

theorem claim_C8_amended_witness :
    cacheGet (cacheSet c8Cache "/repo" c8Files 0 100 "the bundle")
      "/repo" c8Files 0 100 = some "the bundle" ∧
    cacheGet (cacheSet c8Cache "/repo" c8Files 0 100 "the bundle")
      "/repo" [("a.py", 10), ("b.py", 99)] 0 100 = none :=
  claim_C8_amended c8Cache "/repo" c8Files [("a.py", 10), ("b.py", 99)]
    0 0 100 "the bundle" (by decide) (by decide)

/-! C9: the overall score formula -/

/-- C9: `calculate_overall_score` equals the specification's formula — the
sum of sub-score × fixed weight (task completion 0.35, reasoning 0.25,
tool effectiveness 0.15, reflection 0.10, output quality 0.15) over the
sub-scores present, divided by the sum of the weights present — and it is
0 when no weighted sub-score is present, so a missing sub-score rescales
rather than drags the average toward zero. -/
theorem claim_C9 (d : ScoresPartial) :
    calculate_overall_score d = overall_score_spec d ∧
    calculate_overall_score ⟨none, none, none, none, none⟩ = 0 := by
  constructor
  · obtain ⟨a, b, c, e, f⟩ := d
    cases a <;> cases b <;> cases c <;> cases e <;> cases f <;>
      simp [calculate_overall_score, overall_score_spec] <;> norm_num <;>
      ring_nf
  · rfl

/-! C2: the iteration bound at return -/

/-- A run configured with `max_iterations = 1` whose reflector asks for
more data once. -/
def c2Run : Option AgentState :=
  run_agent (mkReflEnv true (.parsed "needs_more_data" "need raw file contents" false))
    12 none "Analyze this repository" "analyze_repo" 1 none

/-- C2, counterexample.  The claim says `iterationCount ≤ maxIterations`
holds at return for every run.  This run returns with
`iterationCount = 2 > 1 = maxIterations`: the router only stops the loop
once the count already exceeds the bound. -/
theorem claim_C2_counterexample :
    c2Run.map (fun s => (s.iteration_count, s.max_iterations))
      = some (2, 1) ∧ ¬(2 ≤ 1) := by
  exact ⟨rfl, by decide⟩

/-- C2, amended: at return `iterationCount ≤ maxIterations + 1` (the
exception path returns the zero count), and the bound is enforced by the
router alone — `route_after_planning` terminates every run whose
`iterationCount` exceeds `maxIterations`.  A run whose reflector requests
`ContinueToPlanner` can thus return with `iterationCount` equal to
`maxIterations + 1`, but never more. -/
theorem claim_C2_amended (env : Env) (fuel : Nat) (crash : Option ExcInfo)
    (task task_type : String) (mi : Nat) (prior : Option CacheBundle)
    (s : AgentState)
    (hrun : run_agent env fuel crash task task_type mi prior = some s) :
    s.iteration_count ≤ s.max_iterations + 1 ∧
    (∀ s2 : AgentState, s2.max_iterations < s2.iteration_count →
      route_after_planning s2 = "end") := by
  constructor
  · unfold run_agent at hrun
    cases crash with
    | some e =>
        have hs := (Option.some.inj hrun).symm
        subst hs
        obtain ⟨hi, _, hm, _⟩ :=
          agentInitialState_fields task task_type mi prior
        show (agentInitialState task task_type mi prior).iteration_count
          ≤ (agentInitialState task task_type mi prior).max_iterations + 1
        omega
    | none => exact run_iteration_bound hrun
  · intro s2 h2
    unfold route_after_planning
    rw [if_pos h2]

/-- A terminating one-pass run used to witness the amended C2. -/
def c2WitnessFinal : AgentState :=
  (run_agent (mkReflEnv false .fail) 8 none "hello there" "general" 2
    none).getD default

theorem claim_C2_amended_witness :
    c2WitnessFinal.iteration_count ≤ c2WitnessFinal.max_iterations + 1 ∧
    (∀ s2 : AgentState, s2.max_iterations < s2.iteration_count →
      route_after_planning s2 = "end") :=
  claim_C2_amended (mkReflEnv false .fail) 8 none "hello there" "general" 2
    none c2WitnessFinal rfl

/-! C3: the generation ceiling -/

/-- The instrumented runner computes the same final state as the plain
runner; the counter is pure bookkeeping. -/
theorem runFromCount_fst (env : Env) :
    ∀ (fuel : Nat) (c : NodeTag × AgentState) (k : Nat),
      (runFromCount env fuel c k).map Prod.fst = runFrom env fuel c := by
  intro fuel
  induction fuel with
  | zero => intro c k; rfl
  | succ n ih =>
      intro c k
      rw [runFrom, runFromCount]
      cases hst : step env c with
      | inr s2 => simp
      | inl c' => exact ih c' _

/-- C3: at or above the hard ceiling (`max_generations = 3`, hard-coded in
the reflector) the verdict is forced to `good`/`end` on every path; the
generator increments `generationCount` exactly once per invocation; and a
terminating run from a fresh initial state performs at most 3 generator
invocations (the instrumented count, which equals the final
`generationCount`). -/
theorem claim_C3 (env : Env) (s : AgentState)
    (hge : reflectorMaxGenerations ≤ s.generation_count)
    (env' : Env) (fuel : Nat) (task task_type : String) (mi : Nat)
    (prior : Option CacheBundle) (s' : AgentState) (k : Nat)
    (hrun : runFromCount env' fuel
      (.planner, agentInitialState task task_type mi prior) 0
      = some (s', k)) :
    ((reflection_node env s).reflection_assessment = some "good" ∧
      (reflection_node env s).next_action = "end") ∧
    (∀ (e2 : Env) (s2 : AgentState),
      (generation_node e2 s2).generation_count = s2.generation_count + 1) ∧
    k ≤ reflectorMaxGenerations ∧ s'.generation_count = k ∧
    runFrom env' fuel (.planner, agentInitialState task task_type mi prior)
      = some s' := by
  obtain ⟨hend, hgood⟩ := reflection_forced_end env hge
  obtain ⟨hk, hgc⟩ := run_generation_bound hrun
  refine ⟨⟨hgood, hend⟩, fun _ _ => rfl, hk, hgc, ?_⟩
  rw [← runFromCount_fst env' fuel
    (.planner, agentInitialState task task_type mi prior) 0, hrun]
  rfl

/-- A terminating instrumented run for the C3 witness: one generator
invocation. -/
def c3RunResult : Option (AgentState × Nat) :=
  runFromCount (mkReflEnv false .fail) 8
    (.planner, agentInitialState "hi" "general" 1 none) 0

theorem claim_C3_witness :
    ((reflection_node (mkReflEnv false .fail)
        { create_initial_state "hi" "general" 1 with generation_count := 3
        }).reflection_assessment = some "good" ∧
      (reflection_node (mkReflEnv false .fail)
        { create_initial_state "hi" "general" 1 with generation_count := 3
        }).next_action = "end") ∧
    (∀ (e2 : Env) (s2 : AgentState),
      (generation_node e2 s2).generation_count = s2.generation_count + 1) ∧
    (c3RunResult.getD default).2 ≤ reflectorMaxGenerations ∧
    (c3RunResult.getD default).1.generation_count
      = (c3RunResult.getD default).2 ∧
    runFrom (mkReflEnv false .fail) 8
      (.planner, agentInitialState "hi" "general" 1 none)
      = some (c3RunResult.getD default).1 :=
  claim_C3 (mkReflEnv false .fail)
    { create_initial_state "hi" "general" 1 with generation_count := 3 }
    (by decide) (mkReflEnv false .fail) 8 "hi" "general" 1 none
    (c3RunResult.getD default).1 (c3RunResult.getD default).2 rfl

/-! C4: the orchestrator's exception handler -/

/-- C4: on any unhandled stage exception the orchestrator returns
normally, with a ScoreSet whose five sub-scores and overall are all zero
and with a human-readable failure description (the apology text) as
`finalOutput`. -/
theorem claim_C4 (env : Env) (fuel : Nat) (e : ExcInfo)
    (task task_type : String) (mi : Nat) (prior : Option CacheBundle) :
    ∃ s, run_agent env fuel (some e) task task_type mi prior = some s ∧
      s.evaluation_scores = some zeroScores ∧
      zeroScores.task_completion = 0 ∧ zeroScores.reasoning_quality = 0 ∧
      zeroScores.tool_effectiveness = 0 ∧ zeroScores.reflection_quality = 0 ∧
      zeroScores.output_quality = 0 ∧ zeroScores.overall_score = 0 ∧
      s.is_complete = false ∧
      s.final_output = some (agentErrorMessage e) ∧
      ∃ rest, agentErrorMessage e =
        "I apologize, but I encountered an error while processing your request.\n\n**Error Type:** "
          ++ rest :=
  ⟨_, rfl, rfl, rfl, rfl, rfl, rfl, rfl, rfl, rfl, rfl, ⟨_, rfl⟩⟩

/-! C5: every returned RunState carries bounded scores -/

/-- C5: every state returned by `run_agent` — normal termination through
the evaluator (including the zero-work early-terminate path) and the
exception path alike — carries non-null `scores` with all five sub-scores
and the overall score in `[0, 100]`. -/
theorem claim_C5 (env : Env) (fuel : Nat) (crash : Option ExcInfo)
    (task task_type : String) (mi : Nat) (prior : Option CacheBundle)
    (s : AgentState)
    (hrun : run_agent env fuel crash task task_type mi prior = some s) :
    ∃ sc, s.evaluation_scores = some sc ∧
      (0 ≤ sc.task_completion ∧ sc.task_completion ≤ 100) ∧
      (0 ≤ sc.reasoning_quality ∧ sc.reasoning_quality ≤ 100) ∧
      (0 ≤ sc.tool_effectiveness ∧ sc.tool_effectiveness ≤ 100) ∧
      (0 ≤ sc.reflection_quality ∧ sc.reflection_quality ≤ 100) ∧
      (0 ≤ sc.output_quality ∧ sc.output_quality ≤ 100) ∧
      (0 ≤ sc.overall_score ∧ sc.overall_score ≤ 100) := by
  unfold run_agent at hrun
  cases crash with
  | some e =>
      have hs := (Option.some.inj hrun).symm
      subst hs
      refine ⟨zeroScores, rfl, ?_⟩
      norm_num [zeroScores]
  | none =>
      obtain ⟨s0, rfl⟩ := run_scores_set hrun
      exact ⟨AgentEvaluator_evaluate s0, rfl, evaluate_bounds s0⟩

/-- A terminating trivial-query run for the C5 witness. -/
def c5Final : AgentState :=
  (run_agent (mkReflEnv false .fail) 8 none "hello" "general" 1 none).getD
    default

theorem claim_C5_witness :
    ∃ sc, c5Final.evaluation_scores = some sc ∧
      (0 ≤ sc.task_completion ∧ sc.task_completion ≤ 100) ∧
      (0 ≤ sc.reasoning_quality ∧ sc.reasoning_quality ≤ 100) ∧
      (0 ≤ sc.tool_effectiveness ∧ sc.tool_effectiveness ≤ 100) ∧
      (0 ≤ sc.reflection_quality ∧ sc.reflection_quality ≤ 100) ∧
      (0 ≤ sc.output_quality ∧ sc.output_quality ≤ 100) ∧
      (0 ≤ sc.overall_score ∧ sc.overall_score ≤ 100) :=
  claim_C5 (mkReflEnv false .fail) 8 none "hello" "general" 1 none c5Final
    rfl

/-! C10: the generator unconditionally completes -/

/-- C10: the generator sets `isComplete` unconditionally (whatever string
the backend or the fallback produced) and bumps `generationCount` by one,
so any normally-returning run with at least one generator invocation ends
with `isComplete = true`; and on any state the `isComplete` flag is worth
exactly the 30-point completion credit in the task-completion
sub-score. -/
theorem claim_C10 (env : Env) (fuel : Nat) (task task_type : String)
    (mi : Nat) (prior : Option CacheBundle) (s : AgentState)
    (hrun : run_agent env fuel none task task_type mi prior = some s)
    (hgen : 1 ≤ s.generation_count) :
    s.is_complete = true ∧
    (∀ (e2 : Env) (s2 : AgentState),
      (generation_node e2 s2).is_complete = true ∧
      (generation_node e2 s2).generation_count = s2.generation_count + 1) ∧
    (∀ s3 : AgentState, s3.is_complete = true →
      calculate_task_completion_score s3 =
        calculate_task_completion_score { s3 with is_complete := false }
          + 30) := by
  refine ⟨?_, fun e2 s2 => ⟨rfl, rfl⟩, ?_⟩
  · unfold run_agent at hrun
    exact run_complete_of_generated hrun hgen
  · intro s3 h3
    unfold calculate_task_completion_score
    dsimp only
    by_cases h1 : pyTruthyStr s3.final_output = true <;>
      by_cases h2 : s3.iteration_count < s3.max_iterations <;>
        by_cases h4 : s3.iteration_count = s3.max_iterations <;>
          simp [h1, h2, h3, h4, min_def] <;> norm_num

/-- A terminating run with one generation for the C10 witness. -/
def c10Final : AgentState :=
  (run_agent (mkReflEnv false .fail) 8 none "hey" "general" 1 none).getD
    default

theorem claim_C10_witness :
    c10Final.is_complete = true ∧
    (∀ (e2 : Env) (s2 : AgentState),
      (generation_node e2 s2).is_complete = true ∧
      (generation_node e2 s2).generation_count = s2.generation_count + 1) ∧
    (∀ s3 : AgentState, s3.is_complete = true →
      calculate_task_completion_score s3 =
        calculate_task_completion_score { s3 with is_complete := false }
          + 30) :=
  claim_C10 (mkReflEnv false .fail) 8 "hey" "general" 1 none c10Final rfl
    (by decide)

end SimpleRAG
